import Mathlib

/-!
Verification of the Kavach-R behavioural ransomware detection pipeline.

This file gives a shallow embedding of the core detection pipeline of the
Kavach-R repository and proves the specification claims about it:

* `kavach/events.py` — the `FileEvent` record.
* `kavach/feature_engine.py` — the sliding-window `FeatureEngine`
  (`add_event` / `_prune`, `extract_features`, `_count_extension_changes`,
  `_mean_entropy_of_recent_files`, `_compute_file_entropy`).
* `kavach/detector.py` — `Detector.process_event`.
* `kavach-r-ui/backend_real.py` — `RealBackend._on_event`, the risk
  integrator (warm-up, dual-speed EMA, response gate, kill tier).
* `kavach/kavach_main.py` — `_generate_synthetic_normal`.

Modelling conventions:

* Python floats that are produced by exact arithmetic (timestamps, risk
  scores, thresholds, rates) are modelled as rationals `ℚ`; float values
  produced by `math.log2` (Shannon entropy) are modelled as reals `ℝ`,
  since the entropy of a byte buffer is irrational in general.
* The file system is modelled as a function `FileSys := String → Option
  (List ℕ)` giving the byte content of a readable file (`none` models an
  `OSError`/`PermissionError` on `open`/`read`).
* The anomaly model (`KavachModel.score`, an opaque joblib blob) is an
  arbitrary function parameter `score`; the process-control primitives
  `kill_process` / `get_process_info` (psutil wrappers) are arbitrary
  function parameters `killOk` / `procInfo`.
* A kill attempt is materialised in the step function's second component
  as a list of `(pid, outcome)` pairs so that kill invocations are
  observable; the real code performs the side effect at that exact spot.
* Python's `round(x, 4)` (banker's rounding to 4 decimal places) is
  modelled exactly by `round4` below.
-/

namespace KavachR

/-- Byte content of readable files; `none` models an unreadable path
    (`OSError` / `PermissionError` on open or read). -/
def FileSys : Type := String → Option (List ℕ)

/-- `kavach/events.py` — dataclass `FileEvent`.
    `timestamp` is seconds since epoch, `event_type` is one of
    `"modify"`, `"rename"`, `"create"`, `"delete"`, `file_path` the
    affected path, `pid` the originating process id if known. -/
structure FileEvent where
  timestamp : ℚ
  event_type : String
  file_path : String
  pid : Option ℤ := none
deriving DecidableEq, Repr

/-- `kavach/feature_engine.py` — class `FeatureEngine` state: the sliding
    window parameters and the deque `_buffer` (front = oldest). -/
structure FeatureEngine where
  window_size : ℚ
  entropy_sample_size : ℕ
  max_entropy_files : ℕ
  buffer : List FileEvent
deriving DecidableEq, Repr

/-- `FeatureEngine.__init__` with the source defaults
    (`window_size=10.0`, `entropy_sample_size=4096`, `max_entropy_files=10`)
    overridable as in the source. -/
def FeatureEngine.init (window_size : ℚ := 10) (entropy_sample_size : ℕ := 4096)
    (max_entropy_files : ℕ := 10) : FeatureEngine :=
  { window_size := window_size
    entropy_sample_size := entropy_sample_size
    max_entropy_files := max_entropy_files
    buffer := [] }

/-- `FeatureEngine._prune` — pop events from the front of the deque while
    their timestamp is older than `cutoff = now − window_size`.  The loop
    stops at the first event that is not stale. -/
def pruneBuffer (cutoff : ℚ) : List FileEvent → List FileEvent
  | [] => []
  | e :: rest => if e.timestamp < cutoff then pruneBuffer cutoff rest else e :: rest

/-- `FeatureEngine.add_event` — append the event, then prune stale
    entries using the newest event's timestamp (not wall clock). -/
def FeatureEngine.add_event (fe : FeatureEngine) (e : FileEvent) : FeatureEngine :=
  { fe with buffer := pruneBuffer (e.timestamp - fe.window_size) (fe.buffer ++ [e]) }

/-- `FeatureEngine.event_count` — number of events currently in the window. -/
def FeatureEngine.event_count (fe : FeatureEngine) : ℕ := fe.buffer.length

-- ---------------------------------------------------------------------
-- Entropy and feature extraction (`kavach/feature_engine.py`)
-- ---------------------------------------------------------------------

/-- Shannon entropy (in bits) of a byte buffer, as computed by the loop in
    `_compute_file_entropy`: byte frequencies `c_b`, `p = c_b / N`,
    `H = −Σ p · log2 p`.  The Python code builds `freq` keyed by the bytes
    occurring in `data` (i.e. `data.dedup`); every such count is positive,
    so the `if p > 0` guard in the source is always taken. -/
noncomputable def entropyOfData (data : List ℕ) : ℝ :=
  (data.dedup.map (fun b =>
    let p : ℝ := (data.count b : ℝ) / (data.length : ℝ);
    -(p * Real.logb 2 p))).sum

/-- `_compute_file_entropy(path, sample_size)` — read up to `sample_size`
    bytes; 0.0 if the file cannot be read or the read is empty, otherwise
    the Shannon entropy of the sampled bytes. -/
noncomputable def computeFileEntropy (fs : FileSys) (path : String) (sample_size : ℕ) : ℝ :=
  match fs path with
  | none => 0
  | some content =>
    let data := content.take sample_size
    if data.isEmpty then 0 else entropyOfData data

/-- Path-collection loop of `_mean_entropy_of_recent_files`: walk the
    window newest-first (the caller passes the reversed event list), keep
    distinct paths of `modify` events, and stop once `max_entropy_files`
    paths have been collected (the length check happens after appending,
    exactly as in the source). -/
def collectRecentPaths (maxFiles : ℕ) : List FileEvent → List String → List String
  | [], paths => paths
  | e :: rest, paths =>
    if e.event_type == "modify" && !(paths.contains e.file_path) then
      let paths2 := paths ++ [e.file_path]
      if maxFiles ≤ paths2.length then paths2
      else collectRecentPaths maxFiles rest paths2
    else collectRecentPaths maxFiles rest paths

/-- `FeatureEngine._mean_entropy_of_recent_files` — mean entropy over the
    sampled recently-modified files, where samples whose computed entropy
    is not strictly positive are filtered out before averaging
    (`valid = [e for e in entropies if e > 0.0]`). -/
noncomputable def meanEntropyOfRecentFiles (fs : FileSys) (fe : FeatureEngine)
    (events : List FileEvent) : ℝ :=
  let paths := collectRecentPaths fe.max_entropy_files events.reverse []
  if paths.isEmpty then 0
  else
    let entropies := paths.map (fun p => computeFileEntropy fs p fe.entropy_sample_size)
    let valid := entropies.filter (fun x => decide (0 < x))
    if valid.isEmpty then 0 else valid.sum / (valid.length : ℝ)

/-- `os.path.basename` on POSIX paths: the component after the last slash. -/
def basename (p : String) : String := (p.splitOn "/").getLastD ""

/-- `FeatureEngine._count_extension_changes` — count rename events whose
    destination basename splits on `.` into at least 3 segments. -/
def countExtensionChanges (rename_events : List FileEvent) : ℕ :=
  rename_events.countP (fun e => decide (3 ≤ ((basename e.file_path).splitOn ".").length))

/-- Feature names, in the order fixed by `FEATURE_NAMES` in the source. -/
def FEATURE_NAMES : List String :=
  ["files_modified_per_sec", "rename_rate", "unique_files_touched",
   "extension_change_rate", "entropy_change"]

/-- Timestamp of the oldest buffered event (`events[0].timestamp`). -/
def firstTimestamp (l : List FileEvent) : ℚ :=
  match l.head? with
  | some e => e.timestamp
  | none => 0

/-- Timestamp of the newest buffered event (`events[-1].timestamp`). -/
def lastTimestamp (l : List FileEvent) : ℚ :=
  match l.getLast? with
  | some e => e.timestamp
  | none => 0

/-- `FeatureEngine.extract_features` — the ordered 5-feature vector over
    the current window, returned (as in the source) as an association
    list in the order of `FEATURE_NAMES`.  An empty window yields all
    features 0.0. -/
noncomputable def extract_features (fs : FileSys) (fe : FeatureEngine) :
    List (String × ℝ) :=
  if fe.buffer.isEmpty then FEATURE_NAMES.map (fun n => (n, (0 : ℝ)))
  else
    let events := fe.buffer
    let elapsed : ℚ := max (lastTimestamp events - firstTimestamp events) 1
    let modify_count := (events.filter (fun e => e.event_type == "modify")).length
    let rename_events := events.filter (fun e => e.event_type == "rename")
    let rename_count := rename_events.length
    let unique_files := (events.map (fun e => e.file_path)).dedup.length
    let ext_change_count := countExtensionChanges rename_events
    let ext_change_rate : ℝ :=
      if 0 < rename_count then (ext_change_count : ℝ) / (rename_count : ℝ) else 0
    let entropy := meanEntropyOfRecentFiles fs fe events
    [("files_modified_per_sec", (modify_count : ℝ) / (elapsed : ℝ)),
     ("rename_rate", (rename_count : ℝ) / (elapsed : ℝ)),
     ("unique_files_touched", (unique_files : ℝ)),
     ("extension_change_rate", ext_change_rate),
     ("entropy_change", entropy)]

-- ---------------------------------------------------------------------
-- Detector (`kavach/detector.py`)
-- ---------------------------------------------------------------------

/-- Alert dict produced by `Detector.process_event`
    (keys `score`, `features`, `is_anomaly`, `pid`, `timestamp`). -/
structure Alert where
  score : ℚ
  features : List (String × ℝ)
  is_anomaly : Bool
  pid : Option ℤ
  timestamp : ℚ

/-- `Detector` state: threshold `T`, `min_events`, and the internal
    `FeatureEngine` (which owns the sliding window).  The trained model
    is opaque (a joblib blob); its `score` method is passed as a function
    parameter to `Detector.process_event`. -/
structure Detector where
  threshold : ℚ
  min_events : ℕ
  engine : FeatureEngine

/-- `Detector.__init__` defaults: `threshold = -0.5`, `min_events = 5`,
    engine with the given window size. -/
def Detector.init (window_size : ℚ := 15) (threshold : ℚ := -(1/2))
    (min_events : ℕ := 5) : Detector :=
  { threshold := threshold
    min_events := min_events
    engine := FeatureEngine.init window_size }

/-- `Detector.process_event` — push the event into the window, return
    `none` while the window holds fewer than `min_events` events,
    otherwise score the extracted features and return an alert exactly
    when `score < threshold`. -/
noncomputable def Detector.process_event (score : List (String × ℝ) → ℚ) (fs : FileSys)
    (d : Detector) (e : FileEvent) : Detector × Option Alert :=
  let engine2 := d.engine.add_event e
  let d2 := { d with engine := engine2 }
  if engine2.event_count < d.min_events then (d2, none)
  else
    let features := extract_features fs engine2
    let s := score features
    if s < d.threshold then
      (d2, some { score := s, features := features, is_anomaly := true,
                  pid := e.pid, timestamp := e.timestamp })
    else (d2, none)

-- ---------------------------------------------------------------------
-- Risk integrator (`kavach-r-ui/backend_real.py`)
-- ---------------------------------------------------------------------

/-- Clamp to the unit interval: `max(0.0, min(1.0, x))`. -/
def clamp01 (x : ℚ) : ℚ := max 0 (min 1 x)

/-- Python's `round` on rationals: round half to even (banker's
    rounding), which is the rounding mode of Python's builtin `round`. -/
def roundHalfEven (q : ℚ) : ℤ :=
  let n := ⌊q⌋
  let f := q - (n : ℚ)
  if f < 1/2 then n
  else if 1/2 < f then n + 1
  else if n % 2 = 0 then n else n + 1

/-- `round(x, 4)` — round to 4 decimal places, half to even. -/
def round4 (q : ℚ) : ℚ := (roundHalfEven (q * 10000) : ℚ) / 10000

/-- `ProcessInfo` snapshot returned by `get_process_info` (only the
    fields the integrator reads). -/
structure ProcInfo where
  name : String
  exe : String

/-- Entry of `RealBackend._flagged_processes`.  The wall-clock
    `timestamp` string of the Python record is not modelled; the
    `features` dict is carried through opaquely from the alert. -/
structure ResponseRecord where
  pid : Option ℤ
  name : String
  exe : String
  score : ℚ
  risk : ℚ
  features : List (String × ℝ)
  status : String

/-- Mutable state of `RealBackend` (the risk integrator).  `logCount`
    abstracts the log list `self.logs` by its length (log message text is
    wall-clock formatted and not modelled); `killed_pids` models the
    Python `set` as a duplicate-free insertion list. -/
structure BackendState where
  threshold : ℚ
  window_size : ℚ
  scanning : Bool
  risk_score : ℚ
  smoothed_risk : ℚ
  last_score : ℚ
  event_count : ℕ
  consecutive_alerts : ℕ
  killed_pids : List ℤ
  flagged : List ResponseRecord
  last_log_time : ℚ
  scan_start : ℚ
  last_alert : Option Alert
  logCount : ℕ
  feature_engine : Option FeatureEngine

/-- `RealBackend.__init__` (default `window_size=15.0`,
    `threshold=-0.5`): everything zeroed, not scanning, no engines yet. -/
def BackendState.init (threshold : ℚ := -(1/2)) (window_size : ℚ := 15) : BackendState :=
  { threshold := threshold
    window_size := window_size
    scanning := false
    risk_score := 0
    smoothed_risk := 0
    last_score := 0
    event_count := 0
    consecutive_alerts := 0
    killed_pids := []
    flagged := []
    last_log_time := 0
    scan_start := 0
    last_alert := none
    logCount := 0
    feature_engine := none }

/-- `set.add` on the killed-pid set. -/
def insertKilled (p : ℤ) (l : List ℤ) : List ℤ := if p ∈ l then l else p :: l

/-- Python truthiness of the optional pid as used by
    `if ... and pid and ...`: `None` and `0` are falsy. -/
def pidTruthy : Option ℤ → Bool
  | none => false
  | some p => p != 0

/-- `RealBackend.start_scan` state reset (setup succeeded): records
    `scan_start = now`, clears the per-scan counters and the killed-pid
    set, creates a fresh feature engine, and logs two startup lines.
    Note the source does not reset `flagged` or `risk_score` here. -/
def startScan (b : BackendState) (now : ℚ) : BackendState :=
  { b with
    scanning := true
    event_count := 0
    last_score := 0
    smoothed_risk := 0
    last_alert := none
    last_log_time := 0
    scan_start := now
    consecutive_alerts := 0
    killed_pids := []
    logCount := b.logCount + 2
    feature_engine := some (FeatureEngine.init b.window_size) }

/-- The locked section of `RealBackend._on_event` after warm-up
    (backend_real.py lines 195-260): instant-risk mapping,
    consecutive-alert bookkeeping, dual-speed EMA, display rounding, and
    the response gate with its critical kill tier.  Returns the new state
    together with the list of kill attempts `(pid, outcome)` performed
    (at most one per event); `killOk` models the success of
    `kill_process`, `procInfo` models `get_process_info`. -/
def integrateAlert (st : BackendState) (alert : Option Alert) (now : ℚ)
    (killOk : ℤ → Bool) (procInfo : ℤ → Option ProcInfo) :
    BackendState × List (ℤ × Bool) :=
  let stepRes :=
    match alert with
    | some a =>
      ({ st with last_score := a.score,
                 consecutive_alerts := st.consecutive_alerts + 1 },
       clamp01 (3/10 + (st.threshold - a.score) * (5/2)))
    | none =>
      -- decrement, don't hard-reset (Nat subtraction is `max(0, x - 2)`)
      ({ st with consecutive_alerts := st.consecutive_alerts - 2 }, 1/50)
  let st1 := stepRes.1
  let instant_risk := stepRes.2
  let alpha : ℚ := if st.smoothed_risk < instant_risk then 1/2 else 2/25
  let smoothed := alpha * instant_risk + (1 - alpha) * st.smoothed_risk
  let risk := round4 (clamp01 smoothed)
  let st2 := { st1 with smoothed_risk := smoothed, risk_score := risk }
  match alert with
  | some a =>
    if 3 ≤ st2.consecutive_alerts ∧ 1/2 < risk then
      let pid := a.pid
      let tier :=
        match pid with
        | some p =>
          if (17/20 : ℚ) < risk ∧ p ≠ 0 ∧ p ∉ st2.killed_pids then
            if killOk p then ("KILLED", insertKilled p st2.killed_pids, [(p, true)], 1)
            else ("Kill Failed", st2.killed_pids, [(p, false)], 0)
          else ("Flagged", st2.killed_pids, ([] : List (ℤ × Bool)), 0)
        | none => ("Flagged", st2.killed_pids, ([] : List (ℤ × Bool)), 0)
      let status := tier.1
      let killed2 := tier.2.1
      let kills := tier.2.2.1
      let killLog : ℕ := tier.2.2.2
      let info := match pid with | some p => procInfo p | none => none
      let rec0 : ResponseRecord :=
        { pid := if pidTruthy pid then pid else none
          name := match info with | some i => i.name | none => "Unknown"
          exe := match info with | some i => i.exe | none => "N/A"
          score := round4 a.score
          risk := risk
          features := a.features
          status := status }
      let st3 := { st2 with last_alert := some a
                            killed_pids := killed2
                            flagged := st2.flagged ++ [rec0]
                            logCount := st2.logCount + killLog }
      let st4 := if 5 ≤ now - st3.last_log_time then
                   { st3 with last_log_time := now, logCount := st3.logCount + 1 }
                 else st3
      (st4, kills)
    else (st2, [])
  | none => (st2, [])

/-- The full UI backend state: integrator state plus the optional
    `Detector` (`self._detector`). -/
structure RBSystem where
  backend : BackendState
  detector : Option Detector

/-- `RealBackend._on_event` — ignore events when not scanning or without
    a detector; count the event and feed the UI feature engine; during
    warm-up only feed the detector; afterwards run the detector and the
    risk integration step. -/
noncomputable def onEvent (score : List (String × ℝ) → ℚ) (fs : FileSys)
    (killOk : ℤ → Bool) (procInfo : ℤ → Option ProcInfo)
    (sys : RBSystem) (e : FileEvent) (now : ℚ) : RBSystem × List (ℤ × Bool) :=
  match sys.detector with
  | none => (sys, [])
  | some det =>
    if sys.backend.scanning = false then (sys, [])
    else
      let b1 := { sys.backend with
                  event_count := sys.backend.event_count + 1,
                  feature_engine := sys.backend.feature_engine.map (fun fe => fe.add_event e) }
      if now - b1.scan_start < 15 then
        (⟨b1, some (Detector.process_event score fs det e).1⟩, [])
      else
        let detRes := Detector.process_event score fs det e
        let intRes := integrateAlert b1 detRes.2 now killOk procInfo
        (⟨intRes.1, some detRes.1⟩, intRes.2)

/-- Run the integrator's locked section over a sequence of per-event
    inputs (detector result, wall-clock time, kill/process primitives),
    collecting all kill attempts. -/
def runIntegrator (st : BackendState) :
    List (Option Alert × ℚ × (ℤ → Bool) × (ℤ → Option ProcInfo)) →
    BackendState × List (ℤ × Bool)
  | [] => (st, [])
  | i :: rest =>
    let r1 := integrateAlert st i.1 i.2.1 i.2.2.1 i.2.2.2
    let r2 := runIntegrator r1.1 rest
    (r2.1, r1.2 ++ r2.2)

/-- Run `_on_event` over a stream of (event, wall-clock) pairs. -/
noncomputable def runOnEvents (score : List (String × ℝ) → ℚ) (fs : FileSys)
    (killOk : ℤ → Bool) (procInfo : ℤ → Option ProcInfo)
    (sys : RBSystem) : List (FileEvent × ℚ) → RBSystem
  | [] => sys
  | p :: rest =>
    runOnEvents score fs killOk procInfo (onEvent score fs killOk procInfo sys p.1 p.2).1 rest

-- ---------------------------------------------------------------------
-- Synthetic training data (`kavach/kavach_main.py`)
-- ---------------------------------------------------------------------

/-- Python's `random.uniform(a, b)`, which returns `a + (b-a) *
    random()` where `random()` draws from `[0, 1]`; the draw `u` is
    supplied explicitly. -/
def pyUniform (a b u : ℚ) : ℚ := a + (b - a) * u

/-- One synthetic benign feature sample. -/
structure SyntheticSample where
  files_modified_per_sec : ℚ
  rename_rate : ℚ
  unique_files_touched : ℚ
  extension_change_rate : ℚ
  entropy_change : ℚ
deriving DecidableEq, Repr

/-- `_generate_synthetic_normal(count)` — `count` samples, each drawing
    five consecutive uniform variates from `random.Random(42)`; the
    PRNG's unit-interval draws are abstracted as the stream `u`.  The
    source draws every sample from the same five fixed ranges; there is
    no idle-biased subpopulation. -/
def generateSyntheticNormal (u : ℕ → ℚ) (count : ℕ) : List SyntheticSample :=
  (List.range count).map (fun i =>
    { files_modified_per_sec := pyUniform (1/10) 2 (u (5*i))
      rename_rate := pyUniform 0 (3/10) (u (5*i + 1))
      unique_files_touched := pyUniform 1 10 (u (5*i + 2))
      extension_change_rate := pyUniform 0 (1/20) (u (5*i + 3))
      entropy_change := pyUniform (7/2) (11/2) (u (5*i + 4)) })

/-- Event-timestamp order. -/
def tsLE (a b : FileEvent) : Prop := a.timestamp ≤ b.timestamp

/-- Concrete sample events used to instantiate proved claims. -/
def evA : FileEvent := { timestamp := 0, event_type := "modify", file_path := "/a", pid := none }

/-- Concrete sample event (see `evA`). -/
def evB : FileEvent := { timestamp := 20, event_type := "modify", file_path := "/b", pid := none }

/-- Concrete sample event (see `evA`). -/
def evC : FileEvent := { timestamp := 21, event_type := "rename", file_path := "/c", pid := none }

/-- Concrete file system with no readable files. -/
def fsEmpty : FileSys := fun _ => none

/-- Concrete file system for the entropy computations: `/a` holds four
    identical bytes (entropy exactly 0), `/b` holds two distinct bytes
    (entropy exactly 1 bit). -/
def fsTwo : FileSys := fun p =>
  if p = "/a" then some [0, 0, 0, 0] else if p = "/b" then some [7, 9] else none

/-- Constant anomaly score used to instantiate proved claims. -/
def scoreNeg1 : List (String × ℝ) → ℚ := fun _ => -1

/-- Kill primitive that always succeeds. -/
def koTrue : ℤ → Bool := fun _ => true

/-- Kill primitive that always fails. -/
def koFalse : ℤ → Bool := fun _ => false

/-- Process inspection that finds nothing. -/
def piNone : ℤ → Option ProcInfo := fun _ => none

/-- Concrete detector used to instantiate proved claims. -/
def detW : Detector := Detector.init 15 (-(1/2)) 5

/-- Concrete started backend used to instantiate proved claims. -/
def bW : BackendState := startScan (BackendState.init (-(1/2)) 15) 0

/-- Concrete running system used to instantiate proved claims. -/
def sysW : RBSystem := { backend := bW, detector := some detW }

/-- Alert with a given raw score and pid (empty feature dict). -/
def mkAlert (s : ℚ) (pid : Option ℤ) : Alert :=
  { score := s, features := [], is_anomaly := true, pid := pid, timestamp := 0 }

/-- First alert of the near-threshold run: instant risk 0.9. -/
def alertX1 : Alert := mkAlert (-(37/50)) none

/-- Second alert of the near-threshold run: instant risk 0.55004. -/
def alertX2 : Alert := mkAlert (-(37501/62500)) none

/-- Third alert of the near-threshold run: instant risk 0.50002. -/
def alertX3 : Alert := mkAlert (-(72501/125000)) none

/-- Strongly anomalous alert (instant risk clamps to 1) carrying pid 4242. -/
def alertKill : Alert := mkAlert (-2) (some 4242)

/-- Alert with score −0.6051 and pid 4242: its instant risk is 0.56275, which
    drives the smoothed risk from 7/8 to exactly 0.85002. -/
def alertY : Alert := mkAlert (-(6051/10000)) (some 4242)

/-- First state of the C10 run: one strong alert from the started backend. -/
def stK1 : BackendState := (integrateAlert bW (some alertKill) 100 koFalse piNone).1

/-- Second state of the C10 run: smoothed risk 3/4, gate still closed. -/
def stK2 : BackendState := (integrateAlert stK1 (some alertKill) 100 koFalse piNone).1

/-- Third step of the C10 run: the gate and the critical tier fire and the
    kill of pid 4242 fails. -/
def resK3 : BackendState × List (ℤ × Bool) :=
  integrateAlert stK2 (some alertKill) 100 koFalse piNone

/-- Fourth step of the C10 run: smoothed risk 0.85002, displayed risk 0.8500. -/
def resK4 : BackendState × List (ℤ × Bool) :=
  integrateAlert resK3.1 (some alertY) 200 koTrue piNone

/-- Constant unit draw 1/2. -/
def uHalf : ℕ → ℚ := fun _ => 1/2

/-- Constant unit draw 1 (the top of `random.uniform`'s range). -/
def uOne : ℕ → ℚ := fun _ => 1

/-- Constant unit draw 0 (the bottom of `random.uniform`'s range). -/
def uZero : ℕ → ℚ := fun _ => 0

/-- The single synthetic sample generated from the constant draw 1/2. -/
def sampleHalf : SyntheticSample :=
  { files_modified_per_sec := 21/20
    rename_rate := 3/20
    unique_files_touched := 11/2
    extension_change_rate := 1/40
    entropy_change := 9/2 }

/-- Two `modify` events used for the entropy-mean computation: `/a` is
    modified at time 0 and `/b` at time 1, so the newest-first scan
    collects `/b` then `/a`. -/
def eventsTwo : List FileEvent :=
  [{ timestamp := 0, event_type := "modify", file_path := "/a", pid := none },
   { timestamp := 1, event_type := "modify", file_path := "/b", pid := none }]

/-- Feature engine with the source defaults used in entropy claims. -/
def feDefault : FeatureEngine := FeatureEngine.init 10 4096 10

-- ---------------------------------------------------------------------
-- Lemmas about pruning (towards claim C7)
-- ---------------------------------------------------------------------

theorem pruneBuffer_sublist (cutoff : ℚ) (l : List FileEvent) :
    List.Sublist (pruneBuffer cutoff l) l := by
  induction l with
  | nil => simp [pruneBuffer]
  | cons e rest ih =>
    simp only [pruneBuffer]
    split
    · exact ih.trans (List.sublist_cons_self e rest)
    · exact List.Sublist.refl _

theorem pruneBuffer_forall (cutoff : ℚ) (l : List FileEvent)
    (hs : l.Pairwise (fun a b => a.timestamp ≤ b.timestamp)) :
    ∀ x ∈ pruneBuffer cutoff l, cutoff ≤ x.timestamp := by
  induction l with
  | nil => intro x hx; simp [pruneBuffer] at hx
  | cons e rest ih =>
    intro x hx
    simp only [pruneBuffer] at hx
    rcases List.pairwise_cons.mp hs with ⟨hhead, htail⟩
    split at hx
    · exact ih htail x hx
    · rcases List.mem_cons.mp hx with h | h
      · subst h; linarith [not_lt.mp (by assumption : ¬ x.timestamp < cutoff)]
      · calc cutoff ≤ e.timestamp := not_lt.mp (by assumption)
          _ ≤ x.timestamp := hhead x h

theorem pruneBuffer_getLast (cutoff : ℚ) (l : List FileEvent) (e : FileEvent)
    (he : ¬ e.timestamp < cutoff) :
    (pruneBuffer cutoff (l ++ [e])).getLast? = some e := by
  induction l with
  | nil => simp [pruneBuffer, he]
  | cons x rest ih =>
    simp only [List.cons_append, pruneBuffer]
    split
    · exact ih
    · exact List.getLast?_concat (x :: rest)


-- ---------------------------------------------------------------------
-- Window-buffer invariants (claim C7)
-- ---------------------------------------------------------------------

theorem tsLE_trans : Transitive tsLE := fun _ _ _ h1 h2 => le_trans h1 h2

theorem add_event_window_size (fe : FeatureEngine) (e : FileEvent) :
    (fe.add_event e).window_size = fe.window_size := rfl

/-- Folding a sorted continuation of the stream keeps the buffer a
    sublist of the events seen so far, sorted, with the window size
    unchanged. -/
theorem foldl_add_event_invariant (l : List FileEvent) :
    ∀ (fe : FeatureEngine) (pre : List FileEvent),
      List.Sublist fe.buffer pre → fe.buffer.Pairwise tsLE →
      (pre ++ l).Pairwise tsLE →
      List.Sublist (l.foldl FeatureEngine.add_event fe).buffer (pre ++ l) ∧
      (l.foldl FeatureEngine.add_event fe).buffer.Pairwise tsLE ∧
      (l.foldl FeatureEngine.add_event fe).window_size = fe.window_size := by
  induction l with
  | nil =>
    intro fe pre hsub hsorted _
    exact ⟨by simpa using hsub, hsorted, rfl⟩
  | cons e rest ih =>
    intro fe pre hsub hsorted hstream
    have hpre_le : ∀ x ∈ pre, tsLE x e := by
      intro x hx
      have := (List.pairwise_append.mp hstream).2.2
      exact this x hx e (by simp)
    have happ_sorted : (fe.buffer ++ [e]).Pairwise tsLE := by
      rw [List.pairwise_append]
      refine ⟨hsorted, List.pairwise_singleton _ _, ?_⟩
      intro x hx y hy
      rcases List.mem_singleton.mp hy with rfl
      exact hpre_le x (hsub.mem hx)
    have hbuf1_sorted : (fe.add_event e).buffer.Pairwise tsLE :=
      happ_sorted.sublist (pruneBuffer_sublist _ _)
    have hbuf1_sub : List.Sublist (fe.add_event e).buffer (pre ++ [e]) := by
      refine (pruneBuffer_sublist _ _).trans ?_
      exact (hsub.append (List.Sublist.refl [e]))
    have hstream2 : ((pre ++ [e]) ++ rest).Pairwise tsLE := by
      simpa [List.append_assoc] using hstream
    have h := ih (fe.add_event e) (pre ++ [e]) hbuf1_sub hbuf1_sorted hstream2
    refine ⟨?_, h.2.1, ?_⟩
    · simpa [List.append_assoc] using h.1
    · rw [List.foldl_cons, h.2.2, add_event_window_size]

theorem sublist_length_le_filter {l s : List FileEvent} (p : FileEvent → Bool)
    (hsub : List.Sublist l s) (hall : ∀ x ∈ l, p x = true) :
    l.length ≤ (s.filter p).length := by
  have : l.filter p = l := List.filter_eq_self.mpr hall
  calc l.length = (l.filter p).length := by rw [this]
    _ ≤ (s.filter p).length := (hsub.filter p).length_le

/-- Claim C7: `add_event` appends the event and prunes every entry with
    `timestamp < event.timestamp − W`, using the newest event's timestamp
    rather than wall clock; for any replayed stream with non-decreasing
    timestamps, after `push(e)` every buffered event has
    `timestamp ≥ e.timestamp − W`, the buffer length is at most the
    number of stream events with `timestamp ≥ e.timestamp − W`, and the
    pushed event itself remains the newest buffered entry. -/
theorem claim_C7_window_prune (W : ℚ) (S M : ℕ) (l : List FileEvent) (e : FileEvent)
    (hW : 0 ≤ W)
    (hmono : (l ++ [e]).Chain' tsLE) :
    ((l ++ [e]).foldl FeatureEngine.add_event (FeatureEngine.init W S M)).buffer =
      pruneBuffer (e.timestamp - W)
        ((l.foldl FeatureEngine.add_event (FeatureEngine.init W S M)).buffer ++ [e]) ∧
    (∀ x ∈ ((l ++ [e]).foldl FeatureEngine.add_event (FeatureEngine.init W S M)).buffer,
       e.timestamp - W ≤ x.timestamp) ∧
    ((l ++ [e]).foldl FeatureEngine.add_event (FeatureEngine.init W S M)).buffer.length ≤
      ((l ++ [e]).filter (fun x => decide (e.timestamp - W ≤ x.timestamp))).length ∧
    ((l ++ [e]).foldl FeatureEngine.add_event (FeatureEngine.init W S M)).buffer.getLast? =
      some e := by
  have hpair : (l ++ [e]).Pairwise tsLE := by
    have : IsTrans FileEvent tsLE := ⟨fun a b c h1 h2 => tsLE_trans h1 h2⟩
    exact List.chain'_iff_pairwise.mp hmono
  have hinv := foldl_add_event_invariant l (FeatureEngine.init W S M) []
    (by simp [FeatureEngine.init]) (by simp [FeatureEngine.init])
    (by simpa using (List.pairwise_append.mp hpair).1)
  set fe1 := l.foldl FeatureEngine.add_event (FeatureEngine.init W S M) with hfe1
  have hW1 : fe1.window_size = W := by
    simpa [FeatureEngine.init] using hinv.2.2
  have hfold : (l ++ [e]).foldl FeatureEngine.add_event (FeatureEngine.init W S M) =
      fe1.add_event e := by
    rw [List.foldl_append]
    rfl
  have hsub1 : List.Sublist fe1.buffer l := by simpa using hinv.1
  have hsorted1 : fe1.buffer.Pairwise tsLE := hinv.2.1
  have hle : ∀ x ∈ fe1.buffer, tsLE x e := by
    intro x hx
    exact (List.pairwise_append.mp hpair).2.2 x (hsub1.mem hx) e (by simp)
  have happ_sorted : (fe1.buffer ++ [e]).Pairwise tsLE := by
    rw [List.pairwise_append]
    exact ⟨hsorted1, List.pairwise_singleton _ _, fun x hx y hy => by
      rcases List.mem_singleton.mp hy with rfl; exact hle x hx⟩
  have hbuf : (fe1.add_event e).buffer =
      pruneBuffer (e.timestamp - W) (fe1.buffer ++ [e]) := by
    simp [FeatureEngine.add_event, hW1]
  have hforall : ∀ x ∈ (fe1.add_event e).buffer, e.timestamp - W ≤ x.timestamp := by
    intro x hx
    rw [hbuf] at hx
    exact pruneBuffer_forall _ _ happ_sorted x hx
  have hsubfinal : List.Sublist (fe1.add_event e).buffer (l ++ [e]) := by
    rw [hbuf]
    exact (pruneBuffer_sublist _ _).trans (hsub1.append (List.Sublist.refl [e]))
  refine ⟨by rw [hfold, hbuf], ?_, ?_, ?_⟩
  · intro x hx
    rw [hfold] at hx
    exact hforall x hx
  · rw [hfold]
    refine sublist_length_le_filter _ hsubfinal ?_
    intro x hx
    simpa using hforall x hx
  · rw [hfold, hbuf]
    exact pruneBuffer_getLast _ _ _ (by simp; linarith)

/-- Witness for C7 at a concrete stream. -/
theorem claim_C7_window_prune_witness :
    (0 : ℚ) ≤ 10 ∧
    ([evA, evB] ++ [evC]).Chain' tsLE ∧
    (∀ x ∈ (([evA, evB] ++ [evC]).foldl FeatureEngine.add_event
          (FeatureEngine.init 10 4096 10)).buffer,
      evC.timestamp - 10 ≤ x.timestamp) := by
  have hchain : ([evA, evB] ++ [evC]).Chain' tsLE := by
    simp [List.chain'_cons, tsLE, evA, evB, evC]
    norm_num
  refine ⟨by norm_num, hchain, ?_⟩
  exact (claim_C7_window_prune 10 4096 10 [evA, evB] evC (by norm_num) hchain).2.1

-- ---------------------------------------------------------------------
-- Detector gating (claim C8)
-- ---------------------------------------------------------------------

/-- Claim C8: `Detector.process_event` first inserts the event into the
    window, returns `none` whenever the window then holds fewer than
    `min_events` events, and otherwise returns an alert carrying the raw
    model score, the extracted feature vector, and the event's pid and
    timestamp if and only if the score is strictly below the threshold;
    when the score is at least the threshold it returns `none`. -/
theorem claim_C8_detector_gate (score : List (String × ℝ) → ℚ) (fs : FileSys)
    (d : Detector) (e : FileEvent) :
    ((Detector.process_event score fs d e).1.engine = d.engine.add_event e) ∧
    ((d.engine.add_event e).event_count < d.min_events →
       (Detector.process_event score fs d e).2 = none) ∧
    (d.min_events ≤ (d.engine.add_event e).event_count →
       ((Detector.process_event score fs d e).2 =
           some { score := score (extract_features fs (d.engine.add_event e)),
                  features := extract_features fs (d.engine.add_event e),
                  is_anomaly := true, pid := e.pid, timestamp := e.timestamp } ↔
         score (extract_features fs (d.engine.add_event e)) < d.threshold) ∧
       (d.threshold ≤ score (extract_features fs (d.engine.add_event e)) →
         (Detector.process_event score fs d e).2 = none)) := by
  by_cases hlt : (d.engine.add_event e).event_count < d.min_events
  · refine ⟨?_, fun _ => ?_, fun hge => absurd hge (not_le.mpr hlt)⟩
    · simp [Detector.process_event, hlt]
    · simp [Detector.process_event, hlt]
  · by_cases hsc : score (extract_features fs (d.engine.add_event e)) < d.threshold
    · refine ⟨?_, fun h => absurd h hlt, fun _ => ⟨?_, fun hge => absurd hsc (not_lt.mpr hge)⟩⟩
      · simp [Detector.process_event, hlt, hsc]
      · simp [Detector.process_event, hlt, hsc]
    · refine ⟨?_, fun h => absurd h hlt, fun _ => ⟨?_, fun _ => ?_⟩⟩
      · simp [Detector.process_event, hlt, hsc]
      · simp [Detector.process_event, hlt, hsc]
      · simp [Detector.process_event, hlt, hsc]

/-- Witness for C8: with a single pushed event, `min_events = 1`, a
    constant score of −1 and threshold −1/2 the detector alerts. -/
theorem claim_C8_detector_gate_witness :
    ((Detector.init 15 (-(1/2)) 1).min_events ≤
       ((Detector.init 15 (-(1/2)) 1).engine.add_event evA).event_count) ∧
    ((Detector.process_event scoreNeg1 fsEmpty (Detector.init 15 (-(1/2)) 1) evA).2 =
        some { score := scoreNeg1 (extract_features fsEmpty
                          ((Detector.init 15 (-(1/2)) 1).engine.add_event evA)),
               features := extract_features fsEmpty
                          ((Detector.init 15 (-(1/2)) 1).engine.add_event evA),
               is_anomaly := true, pid := evA.pid, timestamp := evA.timestamp } ↔
      scoreNeg1 (extract_features fsEmpty
        ((Detector.init 15 (-(1/2)) 1).engine.add_event evA)) < (Detector.init 15 (-(1/2)) 1).threshold) := by
  have hcount : (Detector.init 15 (-(1/2)) 1).min_events ≤
      ((Detector.init 15 (-(1/2)) 1).engine.add_event evA).event_count := by
    norm_num [Detector.init, FeatureEngine.init, FeatureEngine.add_event,
      FeatureEngine.event_count, pruneBuffer, evA]
  exact ⟨hcount,
    ((claim_C8_detector_gate scoreNeg1 fsEmpty (Detector.init 15 (-(1/2)) 1) evA).2.2 hcount).1⟩

-- ---------------------------------------------------------------------
-- Rounding lemmas
-- ---------------------------------------------------------------------

theorem roundHalfEven_le (q : ℚ) : (roundHalfEven q : ℚ) ≤ q + 1/2 := by
  unfold roundHalfEven
  have h0 : (⌊q⌋ : ℚ) ≤ q := Int.floor_le q
  have h1 : q < (⌊q⌋ : ℚ) + 1 := Int.lt_floor_add_one q
  dsimp only
  split_ifs with hf hg hp <;> push_cast <;> linarith

theorem le_roundHalfEven (q : ℚ) : q - 1/2 ≤ (roundHalfEven q : ℚ) := by
  unfold roundHalfEven
  have h0 : (⌊q⌋ : ℚ) ≤ q := Int.floor_le q
  have h1 : q < (⌊q⌋ : ℚ) + 1 := Int.lt_floor_add_one q
  dsimp only
  split_ifs with hf hg hp <;> push_cast <;> linarith

/-- If the 4-decimal display value exceeds the critical threshold 0.85,
    so does the unrounded smoothed risk. -/
theorem smoothed_gt_crit_of_risk {x : ℚ} (h : (17/20 : ℚ) < round4 (clamp01 x)) :
    (17/20 : ℚ) < x := by
  have h1 : (8500 : ℚ) < (roundHalfEven (clamp01 x * 10000) : ℚ) := by
    unfold round4 at h
    linarith
  have h2 : (8500 : ℤ) < roundHalfEven (clamp01 x * 10000) := by exact_mod_cast h1
  have h3 : (8501 : ℚ) ≤ (roundHalfEven (clamp01 x * 10000) : ℚ) := by exact_mod_cast h2
  have h4 := roundHalfEven_le (clamp01 x * 10000)
  have h5 : (17/20 : ℚ) < clamp01 x := by linarith
  unfold clamp01 at h5
  rcases le_total (min 1 x) 0 with hm | hm
  · rw [max_eq_left hm] at h5
    linarith
  · rw [max_eq_right hm] at h5
    exact lt_of_lt_of_le h5 (min_le_right 1 x)

-- ---------------------------------------------------------------------
-- Structural lemmas about the integration step
-- ---------------------------------------------------------------------

theorem integrateAlert_some_fields (st : BackendState) (a : Alert) (now : ℚ)
    (killOk : ℤ → Bool) (procInfo : ℤ → Option ProcInfo) :
    (integrateAlert st (some a) now killOk procInfo).1.smoothed_risk =
      (if st.smoothed_risk < clamp01 (3/10 + (st.threshold - a.score) * (5/2)) then (1/2 : ℚ)
       else 2/25) * clamp01 (3/10 + (st.threshold - a.score) * (5/2)) +
      (1 - (if st.smoothed_risk < clamp01 (3/10 + (st.threshold - a.score) * (5/2)) then (1/2 : ℚ)
            else 2/25)) * st.smoothed_risk ∧
    (integrateAlert st (some a) now killOk procInfo).1.risk_score =
      round4 (clamp01 ((integrateAlert st (some a) now killOk procInfo).1.smoothed_risk)) ∧
    (integrateAlert st (some a) now killOk procInfo).1.consecutive_alerts =
      st.consecutive_alerts + 1 := by
  unfold integrateAlert
  rcases hp : a.pid with _ | p <;>
    simp only [hp] <;> split_ifs <;> simp_all

theorem integrateAlert_none_fields (st : BackendState) (now : ℚ)
    (killOk : ℤ → Bool) (procInfo : ℤ → Option ProcInfo) :
    (integrateAlert st none now killOk procInfo).1.smoothed_risk =
      (if st.smoothed_risk < (1/50 : ℚ) then (1/2 : ℚ) else 2/25) * (1/50) +
      (1 - (if st.smoothed_risk < (1/50 : ℚ) then (1/2 : ℚ) else 2/25)) * st.smoothed_risk ∧
    (integrateAlert st none now killOk procInfo).1.risk_score =
      round4 (clamp01 ((integrateAlert st none now killOk procInfo).1.smoothed_risk)) ∧
    (integrateAlert st none now killOk procInfo).1.consecutive_alerts =
      st.consecutive_alerts - 2 ∧
    (integrateAlert st none now killOk procInfo).1.flagged = st.flagged ∧
    (integrateAlert st none now killOk procInfo).1.killed_pids = st.killed_pids ∧
    (integrateAlert st none now killOk procInfo).2 = [] := by
  unfold integrateAlert
  simp

/-- The post-warm-up branch of `_on_event` is the locked integration step
    applied to the detector's output. -/
theorem onEvent_after_warmup (score : List (String × ℝ) → ℚ) (fs : FileSys)
    (killOk : ℤ → Bool) (procInfo : ℤ → Option ProcInfo)
    (sys : RBSystem) (det : Detector) (e : FileEvent) (now : ℚ)
    (hdet : sys.detector = some det)
    (hscan : sys.backend.scanning = true)
    (hwarm : ¬ now - sys.backend.scan_start < 15) :
    (onEvent score fs killOk procInfo sys e now).1.backend =
      (integrateAlert
        { sys.backend with
          event_count := sys.backend.event_count + 1,
          feature_engine := sys.backend.feature_engine.map (fun fe => fe.add_event e) }
        (Detector.process_event score fs det e).2 now killOk procInfo).1 := by
  obtain ⟨b, dd⟩ := sys
  simp only at hdet hscan hwarm
  subst hdet
  simp [onEvent, hscan, hwarm]

-- ---------------------------------------------------------------------
-- Claim C1: instant risk, consecutive-alert bookkeeping, dual-speed EMA
-- ---------------------------------------------------------------------

/-- Claim C1: for every event processed by `RealBackend._on_event` after
    warm-up — if the detector returned an alert then
    `instant_risk = clamp(0.3 + (T − raw_score)·2.5, 0, 1)` and
    `consecutive_alerts` increases by exactly 1; if not,
    `instant_risk = 0.02` and `consecutive_alerts` becomes
    `max(0, previous − 2)`; then `smoothed_risk` becomes
    `α·instant_risk + (1−α)·smoothed_risk` with `α = 0.5` when
    `instant_risk > smoothed_risk` and `α = 0.08` otherwise, and the
    displayed `risk_score` equals that value clamped to `[0,1]` and
    rounded to 4 decimals. -/
theorem claim_C1_risk_update (score : List (String × ℝ) → ℚ) (fs : FileSys)
    (killOk : ℤ → Bool) (procInfo : ℤ → Option ProcInfo)
    (sys : RBSystem) (det : Detector) (e : FileEvent) (now : ℚ)
    (hdet : sys.detector = some det)
    (hscan : sys.backend.scanning = true)
    (hwarm : ¬ now - sys.backend.scan_start < 15) :
    (∀ a, (Detector.process_event score fs det e).2 = some a →
      (onEvent score fs killOk procInfo sys e now).1.backend.consecutive_alerts =
        sys.backend.consecutive_alerts + 1 ∧
      (onEvent score fs killOk procInfo sys e now).1.backend.smoothed_risk =
        (if sys.backend.smoothed_risk <
              max 0 (min 1 (3/10 + (sys.backend.threshold - a.score) * (5/2)))
         then (1/2 : ℚ) else 2/25) *
          max 0 (min 1 (3/10 + (sys.backend.threshold - a.score) * (5/2))) +
        (1 - (if sys.backend.smoothed_risk <
                  max 0 (min 1 (3/10 + (sys.backend.threshold - a.score) * (5/2)))
              then (1/2 : ℚ) else 2/25)) * sys.backend.smoothed_risk) ∧
    ((Detector.process_event score fs det e).2 = none →
      ((onEvent score fs killOk procInfo sys e now).1.backend.consecutive_alerts : ℤ) =
        max 0 ((sys.backend.consecutive_alerts : ℤ) - 2) ∧
      (onEvent score fs killOk procInfo sys e now).1.backend.smoothed_risk =
        (if sys.backend.smoothed_risk < (1/50 : ℚ) then (1/2 : ℚ) else 2/25) * (1/50) +
        (1 - (if sys.backend.smoothed_risk < (1/50 : ℚ) then (1/2 : ℚ) else 2/25)) *
          sys.backend.smoothed_risk) ∧
    (onEvent score fs killOk procInfo sys e now).1.backend.risk_score =
      round4 (max 0 (min 1
        (onEvent score fs killOk procInfo sys e now).1.backend.smoothed_risk)) := by
  have hb := onEvent_after_warmup score fs killOk procInfo sys det e now hdet hscan hwarm
  rw [hb]
  rcases halert : (Detector.process_event score fs det e).2 with _ | a
  · have h := integrateAlert_none_fields
      { sys.backend with
        event_count := sys.backend.event_count + 1,
        feature_engine := sys.backend.feature_engine.map (fun fe => fe.add_event e) }
      now killOk procInfo
    refine ⟨fun a ha => absurd ha (by simp), fun _ => ⟨?_, ?_⟩, ?_⟩
    · rw [h.2.2.1]
      simp
      omega
    · rw [h.1]
    · rw [h.2.1]
      rfl
  · have h := integrateAlert_some_fields
      { sys.backend with
        event_count := sys.backend.event_count + 1,
        feature_engine := sys.backend.feature_engine.map (fun fe => fe.add_event e) }
      a now killOk procInfo
    refine ⟨fun a2 ha2 => ?_, fun hno => absurd hno (by simp), ?_⟩
    · have ha2' : a2 = a := (Option.some_inj.mp ha2).symm
      subst ha2'
      refine ⟨by rw [h.2.2], ?_⟩
      rw [h.1]
      rfl
    · rw [h.2.1]
      rfl

/-- Witness for C1: concrete started system, event past warm-up. -/
theorem claim_C1_risk_update_witness :
    sysW.detector = some detW ∧ sysW.backend.scanning = true ∧
    ¬ (100 : ℚ) - sysW.backend.scan_start < 15 ∧
    (onEvent scoreNeg1 fsEmpty koTrue piNone sysW evA 100).1.backend.risk_score =
      round4 (max 0 (min 1
        (onEvent scoreNeg1 fsEmpty koTrue piNone sysW evA 100).1.backend.smoothed_risk)) := by
  have h1 : sysW.detector = some detW := rfl
  have h2 : sysW.backend.scanning = true := rfl
  have h3 : ¬ (100 : ℚ) - sysW.backend.scan_start < 15 := by
    norm_num [sysW, bW, startScan, BackendState.init]
  exact ⟨h1, h2, h3,
    (claim_C1_risk_update scoreNeg1 fsEmpty koTrue piNone sysW detW evA 100 h1 h2 h3).2.2⟩

-- ---------------------------------------------------------------------
-- Closed-form step equations for concrete runs
-- ---------------------------------------------------------------------

/-- Integration step on an alert when the response gate does not fire:
    only the bookkeeping fields change and no kill is attempted. -/
theorem integrateAlert_step_eq (st : BackendState) (a : Alert) (now : ℚ)
    (ko : ℤ → Bool) (g : ℤ → Option ProcInfo)
    (hg : ¬ (3 ≤ st.consecutive_alerts + 1 ∧
        (1/2:ℚ) < round4 (clamp01
          ((if st.smoothed_risk < clamp01 (3/10 + (st.threshold - a.score) * (5/2))
            then (1/2:ℚ) else 2/25) * clamp01 (3/10 + (st.threshold - a.score) * (5/2)) +
           (1 - (if st.smoothed_risk < clamp01 (3/10 + (st.threshold - a.score) * (5/2))
                 then (1/2:ℚ) else 2/25)) * st.smoothed_risk)))) :
    integrateAlert st (some a) now ko g =
      ({ st with
          last_score := a.score,
          consecutive_alerts := st.consecutive_alerts + 1,
          smoothed_risk :=
            (if st.smoothed_risk < clamp01 (3/10 + (st.threshold - a.score) * (5/2))
             then (1/2:ℚ) else 2/25) * clamp01 (3/10 + (st.threshold - a.score) * (5/2)) +
            (1 - (if st.smoothed_risk < clamp01 (3/10 + (st.threshold - a.score) * (5/2))
                  then (1/2:ℚ) else 2/25)) * st.smoothed_risk,
          risk_score := round4 (clamp01
            ((if st.smoothed_risk < clamp01 (3/10 + (st.threshold - a.score) * (5/2))
              then (1/2:ℚ) else 2/25) * clamp01 (3/10 + (st.threshold - a.score) * (5/2)) +
             (1 - (if st.smoothed_risk < clamp01 (3/10 + (st.threshold - a.score) * (5/2))
                   then (1/2:ℚ) else 2/25)) * st.smoothed_risk)) }, []) := by
  unfold integrateAlert
  dsimp only
  rw [if_neg hg]

/-- Integration step on an alert when the gate fires, the critical tier
    is reached, and the kill succeeds (with the log throttle open). -/
theorem integrateAlert_step_kill_eq (st : BackendState) (a : Alert) (now : ℚ)
    (ko : ℤ → Bool) (g : ℤ → Option ProcInfo) (p : ℤ)
    (hp : a.pid = some p)
    (hg : 3 ≤ st.consecutive_alerts + 1 ∧
        (1/2:ℚ) < round4 (clamp01
          ((if st.smoothed_risk < clamp01 (3/10 + (st.threshold - a.score) * (5/2))
            then (1/2:ℚ) else 2/25) * clamp01 (3/10 + (st.threshold - a.score) * (5/2)) +
           (1 - (if st.smoothed_risk < clamp01 (3/10 + (st.threshold - a.score) * (5/2))
                 then (1/2:ℚ) else 2/25)) * st.smoothed_risk)))
    (hcrit : (17/20:ℚ) < round4 (clamp01
          ((if st.smoothed_risk < clamp01 (3/10 + (st.threshold - a.score) * (5/2))
            then (1/2:ℚ) else 2/25) * clamp01 (3/10 + (st.threshold - a.score) * (5/2)) +
           (1 - (if st.smoothed_risk < clamp01 (3/10 + (st.threshold - a.score) * (5/2))
                 then (1/2:ℚ) else 2/25)) * st.smoothed_risk)) ∧ p ≠ 0 ∧ p ∉ st.killed_pids)
    (hk : ko p = true)
    (ht : 5 ≤ now - st.last_log_time) :
    integrateAlert st (some a) now ko g =
      ({ st with
          last_score := a.score,
          consecutive_alerts := st.consecutive_alerts + 1,
          smoothed_risk :=
            (if st.smoothed_risk < clamp01 (3/10 + (st.threshold - a.score) * (5/2))
             then (1/2:ℚ) else 2/25) * clamp01 (3/10 + (st.threshold - a.score) * (5/2)) +
            (1 - (if st.smoothed_risk < clamp01 (3/10 + (st.threshold - a.score) * (5/2))
                  then (1/2:ℚ) else 2/25)) * st.smoothed_risk,
          risk_score := round4 (clamp01
            ((if st.smoothed_risk < clamp01 (3/10 + (st.threshold - a.score) * (5/2))
              then (1/2:ℚ) else 2/25) * clamp01 (3/10 + (st.threshold - a.score) * (5/2)) +
             (1 - (if st.smoothed_risk < clamp01 (3/10 + (st.threshold - a.score) * (5/2))
                   then (1/2:ℚ) else 2/25)) * st.smoothed_risk)),
          last_alert := some a,
          killed_pids := insertKilled p st.killed_pids,
          flagged := st.flagged ++
            [{ pid := if pidTruthy (some p) then some p else none,
               name := match g p with | some i => i.name | none => "Unknown",
               exe := match g p with | some i => i.exe | none => "N/A",
               score := round4 a.score,
               risk := round4 (clamp01
                 ((if st.smoothed_risk < clamp01 (3/10 + (st.threshold - a.score) * (5/2))
                   then (1/2:ℚ) else 2/25) * clamp01 (3/10 + (st.threshold - a.score) * (5/2)) +
                  (1 - (if st.smoothed_risk < clamp01 (3/10 + (st.threshold - a.score) * (5/2))
                        then (1/2:ℚ) else 2/25)) * st.smoothed_risk)),
               features := a.features,
               status := "KILLED" }],
          logCount := st.logCount + 1 + 1,
          last_log_time := now }, [(p, true)]) := by
  unfold integrateAlert
  dsimp only
  rw [hp]
  rw [if_pos hg]
  simp only [hg, hcrit, hk, ht, if_true, iff_true, eq_self_iff_true]
  simp [hcrit.2.1]

/-- Integration step on an alert when the gate fires, the critical tier
    is reached, and the kill fails: the pid is NOT inserted into
    `killed_pids` and the record's status is `"Kill Failed"`. -/
theorem integrateAlert_step_killfail_eq (st : BackendState) (a : Alert) (now : ℚ)
    (ko : ℤ → Bool) (g : ℤ → Option ProcInfo) (p : ℤ)
    (hp : a.pid = some p)
    (hg : 3 ≤ st.consecutive_alerts + 1 ∧
        (1/2:ℚ) < round4 (clamp01
          ((if st.smoothed_risk < clamp01 (3/10 + (st.threshold - a.score) * (5/2))
            then (1/2:ℚ) else 2/25) * clamp01 (3/10 + (st.threshold - a.score) * (5/2)) +
           (1 - (if st.smoothed_risk < clamp01 (3/10 + (st.threshold - a.score) * (5/2))
                 then (1/2:ℚ) else 2/25)) * st.smoothed_risk)))
    (hcrit : (17/20:ℚ) < round4 (clamp01
          ((if st.smoothed_risk < clamp01 (3/10 + (st.threshold - a.score) * (5/2))
            then (1/2:ℚ) else 2/25) * clamp01 (3/10 + (st.threshold - a.score) * (5/2)) +
           (1 - (if st.smoothed_risk < clamp01 (3/10 + (st.threshold - a.score) * (5/2))
                 then (1/2:ℚ) else 2/25)) * st.smoothed_risk)) ∧ p ≠ 0 ∧ p ∉ st.killed_pids)
    (hk : ko p = false)
    (ht : 5 ≤ now - st.last_log_time) :
    integrateAlert st (some a) now ko g =
      ({ st with
          last_score := a.score,
          consecutive_alerts := st.consecutive_alerts + 1,
          smoothed_risk :=
            (if st.smoothed_risk < clamp01 (3/10 + (st.threshold - a.score) * (5/2))
             then (1/2:ℚ) else 2/25) * clamp01 (3/10 + (st.threshold - a.score) * (5/2)) +
            (1 - (if st.smoothed_risk < clamp01 (3/10 + (st.threshold - a.score) * (5/2))
                  then (1/2:ℚ) else 2/25)) * st.smoothed_risk,
          risk_score := round4 (clamp01
            ((if st.smoothed_risk < clamp01 (3/10 + (st.threshold - a.score) * (5/2))
              then (1/2:ℚ) else 2/25) * clamp01 (3/10 + (st.threshold - a.score) * (5/2)) +
             (1 - (if st.smoothed_risk < clamp01 (3/10 + (st.threshold - a.score) * (5/2))
                   then (1/2:ℚ) else 2/25)) * st.smoothed_risk)),
          last_alert := some a,
          flagged := st.flagged ++
            [{ pid := if pidTruthy (some p) then some p else none,
               name := match g p with | some i => i.name | none => "Unknown",
               exe := match g p with | some i => i.exe | none => "N/A",
               score := round4 a.score,
               risk := round4 (clamp01
                 ((if st.smoothed_risk < clamp01 (3/10 + (st.threshold - a.score) * (5/2))
                   then (1/2:ℚ) else 2/25) * clamp01 (3/10 + (st.threshold - a.score) * (5/2)) +
                  (1 - (if st.smoothed_risk < clamp01 (3/10 + (st.threshold - a.score) * (5/2))
                        then (1/2:ℚ) else 2/25)) * st.smoothed_risk)),
               features := a.features,
               status := "Kill Failed" }],
          logCount := st.logCount + 0 + 1,
          last_log_time := now }, [(p, false)]) := by
  unfold integrateAlert
  dsimp only
  rw [hp]
  rw [if_pos hg]
  simp only [hg, hcrit, hk, ht, if_true, iff_true, eq_self_iff_true]
  simp [hcrit.2.1]

-- ---------------------------------------------------------------------
-- Claim C2: the response gate
-- ---------------------------------------------------------------------

/-- When an alert is present, a record is appended iff the gate condition
    (on the incremented consecutive counter and the displayed risk)
    holds; when it does not hold, nothing is appended and no kill is
    attempted. -/
theorem integrateAlert_gate_split (st : BackendState) (a : Alert) (now : ℚ)
    (ko : ℤ → Bool) (g : ℤ → Option ProcInfo) :
    ((3 ≤ st.consecutive_alerts + 1 ∧
        (1/2:ℚ) < round4 (clamp01
          ((if st.smoothed_risk < clamp01 (3/10 + (st.threshold - a.score) * (5/2))
            then (1/2:ℚ) else 2/25) * clamp01 (3/10 + (st.threshold - a.score) * (5/2)) +
           (1 - (if st.smoothed_risk < clamp01 (3/10 + (st.threshold - a.score) * (5/2))
                 then (1/2:ℚ) else 2/25)) * st.smoothed_risk))) →
      ∃ r, (integrateAlert st (some a) now ko g).1.flagged = st.flagged ++ [r]) ∧
    (¬ (3 ≤ st.consecutive_alerts + 1 ∧
        (1/2:ℚ) < round4 (clamp01
          ((if st.smoothed_risk < clamp01 (3/10 + (st.threshold - a.score) * (5/2))
            then (1/2:ℚ) else 2/25) * clamp01 (3/10 + (st.threshold - a.score) * (5/2)) +
           (1 - (if st.smoothed_risk < clamp01 (3/10 + (st.threshold - a.score) * (5/2))
                 then (1/2:ℚ) else 2/25)) * st.smoothed_risk))) →
      (integrateAlert st (some a) now ko g).1.flagged = st.flagged ∧
      (integrateAlert st (some a) now ko g).2 = []) := by
  unfold integrateAlert
  dsimp only
  constructor
  · intro hg
    rw [if_pos hg]
    split_ifs <;> exact ⟨_, rfl⟩
  · intro hg
    rw [if_neg hg]
    exact ⟨rfl, rfl⟩

/-- Claim C2 (amended): a `ResponseRecord` is appended — and a kill may
    only then be attempted — if and only if the detector returned an
    alert, the updated `consecutive_alerts` is at least
    `min_consecutive = 3`, and the displayed `risk_score` (the smoothed
    risk clamped to `[0,1]` and rounded to 4 decimals) exceeds
    `flag_threshold = 0.5`; when the gate fails, no record is appended
    and no kill is invoked. -/
theorem claim_C2_response_gate (st : BackendState) (alert : Option Alert) (now : ℚ)
    (ko : ℤ → Bool) (g : ℤ → Option ProcInfo) :
    ((∃ r, (integrateAlert st alert now ko g).1.flagged = st.flagged ++ [r]) ↔
      (alert.isSome = true ∧
       3 ≤ (integrateAlert st alert now ko g).1.consecutive_alerts ∧
       (1/2 : ℚ) < (integrateAlert st alert now ko g).1.risk_score)) ∧
    (¬ (alert.isSome = true ∧
        3 ≤ (integrateAlert st alert now ko g).1.consecutive_alerts ∧
        (1/2 : ℚ) < (integrateAlert st alert now ko g).1.risk_score) →
      (integrateAlert st alert now ko g).1.flagged = st.flagged ∧
      (integrateAlert st alert now ko g).2 = []) := by
  rcases alert with _ | a
  · have h := integrateAlert_none_fields st now ko g
    constructor
    · constructor
      · rintro ⟨r, hr⟩
        rw [h.2.2.2.1] at hr
        have := congrArg List.length hr
        simp at this
      · rintro ⟨hs, _⟩
        simp at hs
    · intro _
      exact ⟨h.2.2.2.1, h.2.2.2.2.2⟩
  · have hf := integrateAlert_some_fields st a now ko g
    have hca : (integrateAlert st (some a) now ko g).1.consecutive_alerts =
        st.consecutive_alerts + 1 := hf.2.2
    have hrk : (integrateAlert st (some a) now ko g).1.risk_score =
        round4 (clamp01
          ((if st.smoothed_risk < clamp01 (3/10 + (st.threshold - a.score) * (5/2))
            then (1/2:ℚ) else 2/25) * clamp01 (3/10 + (st.threshold - a.score) * (5/2)) +
           (1 - (if st.smoothed_risk < clamp01 (3/10 + (st.threshold - a.score) * (5/2))
                 then (1/2:ℚ) else 2/25)) * st.smoothed_risk)) := by
      rw [hf.2.1, hf.1]
    have hsplit := integrateAlert_gate_split st a now ko g
    rw [hca, hrk]
    by_cases hg : 3 ≤ st.consecutive_alerts + 1 ∧
        (1/2:ℚ) < round4 (clamp01
          ((if st.smoothed_risk < clamp01 (3/10 + (st.threshold - a.score) * (5/2))
            then (1/2:ℚ) else 2/25) * clamp01 (3/10 + (st.threshold - a.score) * (5/2)) +
           (1 - (if st.smoothed_risk < clamp01 (3/10 + (st.threshold - a.score) * (5/2))
                 then (1/2:ℚ) else 2/25)) * st.smoothed_risk))
    · constructor
      · exact iff_of_true (hsplit.1 hg) ⟨rfl, hg.1, hg.2⟩
      · intro hno
        exact absurd ⟨rfl, hg.1, hg.2⟩ hno
    · constructor
      · refine iff_of_false ?_ ?_
        · rintro ⟨r, hr⟩
          rw [(hsplit.2 hg).1] at hr
          have := congrArg List.length hr
          simp at this
        · rintro ⟨_, h1, h2⟩
          exact hg ⟨h1, h2⟩
      · intro _
        exact hsplit.2 hg

/-- Witness for C2 at a concrete non-alert event: the gate predicates
    fail and nothing is recorded. -/
theorem claim_C2_response_gate_witness :
    (¬ ((none : Option Alert).isSome = true ∧
        3 ≤ (integrateAlert bW none 100 koTrue piNone).1.consecutive_alerts ∧
        (1/2 : ℚ) < (integrateAlert bW none 100 koTrue piNone).1.risk_score)) ∧
    (integrateAlert bW none 100 koTrue piNone).1.flagged = bW.flagged ∧
    (integrateAlert bW none 100 koTrue piNone).2 = [] := by
  have hno : ¬ ((none : Option Alert).isSome = true ∧
      3 ≤ (integrateAlert bW none 100 koTrue piNone).1.consecutive_alerts ∧
      (1/2 : ℚ) < (integrateAlert bW none 100 koTrue piNone).1.risk_score) := by
    rintro ⟨hs, _⟩
    simp at hs
  exact ⟨hno, (claim_C2_response_gate bW none 100 koTrue piNone).2 hno⟩

/-- Counterexample to C2 as stated over the raw smoothed risk: after
    three consecutive alerts the smoothed risk is 0.50002, strictly above
    the 0.5 flag threshold, and the alert and consecutive-alert
    predicates hold, yet no record is appended and no kill is attempted —
    because the gate compares the 4-decimal rounded display value
    (0.5000) with the threshold, not the raw smoothed risk. -/
theorem claim_C2_counterexample :
    (integrateAlert (integrateAlert (integrateAlert bW (some alertX1) 100 koTrue piNone).1
       (some alertX2) 100 koTrue piNone).1 (some alertX3) 100 koTrue piNone).1.consecutive_alerts
      = 3 ∧
    (integrateAlert (integrateAlert (integrateAlert bW (some alertX1) 100 koTrue piNone).1
       (some alertX2) 100 koTrue piNone).1 (some alertX3) 100 koTrue piNone).1.smoothed_risk
      = 25001/50000 ∧
    ((1:ℚ)/2 < 25001/50000) ∧
    (integrateAlert (integrateAlert (integrateAlert bW (some alertX1) 100 koTrue piNone).1
       (some alertX2) 100 koTrue piNone).1 (some alertX3) 100 koTrue piNone).1.flagged = [] ∧
    (integrateAlert (integrateAlert (integrateAlert bW (some alertX1) 100 koTrue piNone).1
       (some alertX2) 100 koTrue piNone).1 (some alertX3) 100 koTrue piNone).2 = [] := by
  have hbca : bW.consecutive_alerts = 0 := rfl
  have hbsm : bW.smoothed_risk = 0 := rfl
  have hbth : bW.threshold = -(1/2) := rfl
  have hbfl : bW.flagged = [] := rfl
  have hg1 : ¬ (3 ≤ bW.consecutive_alerts + 1 ∧
      (1/2:ℚ) < round4 (clamp01
        ((if bW.smoothed_risk < clamp01 (3/10 + (bW.threshold - alertX1.score) * (5/2))
          then (1/2:ℚ) else 2/25) * clamp01 (3/10 + (bW.threshold - alertX1.score) * (5/2)) +
         (1 - (if bW.smoothed_risk < clamp01 (3/10 + (bW.threshold - alertX1.score) * (5/2))
               then (1/2:ℚ) else 2/25)) * bW.smoothed_risk))) := by
    rintro ⟨h1, _⟩
    rw [hbca] at h1
    omega
  have e1 := integrateAlert_step_eq bW alertX1 100 koTrue piNone hg1
  have h1ca : (integrateAlert bW (some alertX1) 100 koTrue piNone).1.consecutive_alerts = 1 := by
    rw [e1, hbca]
  have h1sm : (integrateAlert bW (some alertX1) 100 koTrue piNone).1.smoothed_risk = 9/20 := by
    rw [e1]
    show (if bW.smoothed_risk < clamp01 (3/10 + (bW.threshold - alertX1.score) * (5/2))
          then (1/2:ℚ) else 2/25) * clamp01 (3/10 + (bW.threshold - alertX1.score) * (5/2)) +
         (1 - (if bW.smoothed_risk < clamp01 (3/10 + (bW.threshold - alertX1.score) * (5/2))
               then (1/2:ℚ) else 2/25)) * bW.smoothed_risk = 9/20
    rw [hbsm, hbth]
    norm_num [alertX1, mkAlert, clamp01, min_def, max_def]
  have h1th : (integrateAlert bW (some alertX1) 100 koTrue piNone).1.threshold = -(1/2) := by
    rw [e1]
    exact hbth
  have h1fl : (integrateAlert bW (some alertX1) 100 koTrue piNone).1.flagged = [] := by
    rw [e1]
    exact hbfl
  have hg2 : ¬ (3 ≤ (integrateAlert bW (some alertX1) 100 koTrue piNone).1.consecutive_alerts + 1 ∧
      (1/2:ℚ) < round4 (clamp01
        ((if (integrateAlert bW (some alertX1) 100 koTrue piNone).1.smoothed_risk <
              clamp01 (3/10 + ((integrateAlert bW (some alertX1) 100 koTrue piNone).1.threshold - alertX2.score) * (5/2))
          then (1/2:ℚ) else 2/25) *
            clamp01 (3/10 + ((integrateAlert bW (some alertX1) 100 koTrue piNone).1.threshold - alertX2.score) * (5/2)) +
         (1 - (if (integrateAlert bW (some alertX1) 100 koTrue piNone).1.smoothed_risk <
                   clamp01 (3/10 + ((integrateAlert bW (some alertX1) 100 koTrue piNone).1.threshold - alertX2.score) * (5/2))
               then (1/2:ℚ) else 2/25)) *
           (integrateAlert bW (some alertX1) 100 koTrue piNone).1.smoothed_risk))) := by
    rintro ⟨h1, _⟩
    rw [h1ca] at h1
    omega
  have e2 := integrateAlert_step_eq (integrateAlert bW (some alertX1) 100 koTrue piNone).1
    alertX2 100 koTrue piNone hg2
  have h2ca : (integrateAlert (integrateAlert bW (some alertX1) 100 koTrue piNone).1
      (some alertX2) 100 koTrue piNone).1.consecutive_alerts = 2 := by
    rw [e2, h1ca]
  have h2sm : (integrateAlert (integrateAlert bW (some alertX1) 100 koTrue piNone).1
      (some alertX2) 100 koTrue piNone).1.smoothed_risk = 25001/50000 := by
    rw [e2]
    show (if (integrateAlert bW (some alertX1) 100 koTrue piNone).1.smoothed_risk <
             clamp01 (3/10 + ((integrateAlert bW (some alertX1) 100 koTrue piNone).1.threshold - alertX2.score) * (5/2))
          then (1/2:ℚ) else 2/25) *
           clamp01 (3/10 + ((integrateAlert bW (some alertX1) 100 koTrue piNone).1.threshold - alertX2.score) * (5/2)) +
         (1 - (if (integrateAlert bW (some alertX1) 100 koTrue piNone).1.smoothed_risk <
                  clamp01 (3/10 + ((integrateAlert bW (some alertX1) 100 koTrue piNone).1.threshold - alertX2.score) * (5/2))
               then (1/2:ℚ) else 2/25)) *
           (integrateAlert bW (some alertX1) 100 koTrue piNone).1.smoothed_risk = 25001/50000
    rw [h1sm, h1th]
    norm_num [alertX2, mkAlert, clamp01, min_def, max_def]
  have h2th : (integrateAlert (integrateAlert bW (some alertX1) 100 koTrue piNone).1
      (some alertX2) 100 koTrue piNone).1.threshold = -(1/2) := by
    rw [e2]
    exact h1th
  have h2fl : (integrateAlert (integrateAlert bW (some alertX1) 100 koTrue piNone).1
      (some alertX2) 100 koTrue piNone).1.flagged = [] := by
    rw [e2]
    exact h1fl
  have hg3 : ¬ (3 ≤ (integrateAlert (integrateAlert bW (some alertX1) 100 koTrue piNone).1
        (some alertX2) 100 koTrue piNone).1.consecutive_alerts + 1 ∧
      (1/2:ℚ) < round4 (clamp01
        ((if (integrateAlert (integrateAlert bW (some alertX1) 100 koTrue piNone).1
              (some alertX2) 100 koTrue piNone).1.smoothed_risk <
              clamp01 (3/10 + ((integrateAlert (integrateAlert bW (some alertX1) 100 koTrue piNone).1
                (some alertX2) 100 koTrue piNone).1.threshold - alertX3.score) * (5/2))
          then (1/2:ℚ) else 2/25) *
            clamp01 (3/10 + ((integrateAlert (integrateAlert bW (some alertX1) 100 koTrue piNone).1
              (some alertX2) 100 koTrue piNone).1.threshold - alertX3.score) * (5/2)) +
         (1 - (if (integrateAlert (integrateAlert bW (some alertX1) 100 koTrue piNone).1
                   (some alertX2) 100 koTrue piNone).1.smoothed_risk <
                   clamp01 (3/10 + ((integrateAlert (integrateAlert bW (some alertX1) 100 koTrue piNone).1
                     (some alertX2) 100 koTrue piNone).1.threshold - alertX3.score) * (5/2))
               then (1/2:ℚ) else 2/25)) *
           (integrateAlert (integrateAlert bW (some alertX1) 100 koTrue piNone).1
             (some alertX2) 100 koTrue piNone).1.smoothed_risk))) := by
    rintro ⟨_, h2⟩
    rw [h2sm, h2th] at h2
    norm_num [alertX3, mkAlert, clamp01, min_def, max_def, round4, roundHalfEven] at h2
  have e3 := integrateAlert_step_eq (integrateAlert (integrateAlert bW (some alertX1) 100 koTrue piNone).1
    (some alertX2) 100 koTrue piNone).1 alertX3 100 koTrue piNone hg3
  refine ⟨?_, ?_, by norm_num, ?_, ?_⟩
  · rw [e3, h2ca]
  · rw [e3]
    show (if (integrateAlert (integrateAlert bW (some alertX1) 100 koTrue piNone).1
             (some alertX2) 100 koTrue piNone).1.smoothed_risk <
             clamp01 (3/10 + ((integrateAlert (integrateAlert bW (some alertX1) 100 koTrue piNone).1
               (some alertX2) 100 koTrue piNone).1.threshold - alertX3.score) * (5/2))
          then (1/2:ℚ) else 2/25) *
           clamp01 (3/10 + ((integrateAlert (integrateAlert bW (some alertX1) 100 koTrue piNone).1
             (some alertX2) 100 koTrue piNone).1.threshold - alertX3.score) * (5/2)) +
         (1 - (if (integrateAlert (integrateAlert bW (some alertX1) 100 koTrue piNone).1
                  (some alertX2) 100 koTrue piNone).1.smoothed_risk <
                  clamp01 (3/10 + ((integrateAlert (integrateAlert bW (some alertX1) 100 koTrue piNone).1
                    (some alertX2) 100 koTrue piNone).1.threshold - alertX3.score) * (5/2))
               then (1/2:ℚ) else 2/25)) *
           (integrateAlert (integrateAlert bW (some alertX1) 100 koTrue piNone).1
             (some alertX2) 100 koTrue piNone).1.smoothed_risk = 25001/50000
    rw [h2sm, h2th]
    norm_num [alertX3, mkAlert, clamp01, min_def, max_def]
  · rw [e3]
    exact h2fl
  · rw [e3]

-- ---------------------------------------------------------------------
-- Claims C3 and C10: kill tier, monotone killed set, retry on failure
-- ---------------------------------------------------------------------


theorem insertKilled_mem_self (p : ℤ) (l : List ℤ) : p ∈ insertKilled p l := by
  unfold insertKilled
  split
  · assumption
  · exact List.mem_cons_self p l

theorem insertKilled_mem_of_mem {q : ℤ} (p : ℤ) (l : List ℤ) (h : q ∈ l) :
    q ∈ insertKilled p l := by
  unfold insertKilled
  split
  · exact h
  · exact List.mem_cons_of_mem p h

theorem integrateAlert_kill_cases (st : BackendState) (a : Alert) (now : ℚ)
    (ko : ℤ → Bool) (g : ℤ → Option ProcInfo) :
    ((integrateAlert st (some a) now ko g).2 = [] ∧
     (integrateAlert st (some a) now ko g).1.killed_pids = st.killed_pids) ∨
    (∃ p, a.pid = some p ∧ p ≠ 0 ∧ p ∉ st.killed_pids ∧
     (17/20:ℚ) < round4 (clamp01
        ((if st.smoothed_risk < clamp01 (3/10 + (st.threshold - a.score) * (5/2))
          then (1/2:ℚ) else 2/25) * clamp01 (3/10 + (st.threshold - a.score) * (5/2)) +
         (1 - (if st.smoothed_risk < clamp01 (3/10 + (st.threshold - a.score) * (5/2))
               then (1/2:ℚ) else 2/25)) * st.smoothed_risk)) ∧
     (integrateAlert st (some a) now ko g).2 = [(p, ko p)] ∧
     ((ko p = true ∧
        (integrateAlert st (some a) now ko g).1.killed_pids = insertKilled p st.killed_pids) ∨
      (ko p = false ∧
        (integrateAlert st (some a) now ko g).1.killed_pids = st.killed_pids)) ∧
     (∃ r, (integrateAlert st (some a) now ko g).1.flagged = st.flagged ++ [r] ∧
        r.status = (if ko p = true then "KILLED" else "Kill Failed"))) := by
  unfold integrateAlert
  dsimp only
  set SM := (if st.smoothed_risk < clamp01 (3/10 + (st.threshold - a.score) * (5/2))
      then (1/2:ℚ) else 2/25) * clamp01 (3/10 + (st.threshold - a.score) * (5/2)) +
    (1 - (if st.smoothed_risk < clamp01 (3/10 + (st.threshold - a.score) * (5/2))
          then (1/2:ℚ) else 2/25)) * st.smoothed_risk with hSM
  set RK := round4 (clamp01 SM) with hRK
  by_cases hg : 3 ≤ st.consecutive_alerts + 1 ∧ (1/2:ℚ) < RK
  · rw [if_pos hg]
    rcases hp : a.pid with _ | p
    · left
      exact ⟨rfl, by split_ifs <;> rfl⟩
    · dsimp only
      by_cases hc : (17/20:ℚ) < RK ∧ p ≠ 0 ∧ p ∉ st.killed_pids
      · right
        refine ⟨p, rfl, hc.2.1, hc.2.2, hc.1, ?_, ?_, ?_⟩
        · rw [if_pos hc]
          cases hko : ko p <;> simp
        · rw [if_pos hc]
          cases hko : ko p
          · refine Or.inr ⟨rfl, ?_⟩
            split_ifs <;> first | rfl | (exfalso; simp_all)
          · refine Or.inl ⟨rfl, ?_⟩
            split_ifs <;> first | rfl | (exfalso; simp_all)
        · rw [if_pos hc]
          cases hko : ko p <;>
            (split_ifs <;> first | exact ⟨_, rfl, by simp⟩ | (exfalso; simp_all))
      · left
        refine ⟨?_, ?_⟩
        · rw [if_neg hc]
        · rw [if_neg hc]
          split_ifs <;> rfl
  · rw [if_neg hg]
    left
    exact ⟨rfl, rfl⟩

theorem integrateAlert_killed_monotone (st : BackendState) (alert : Option Alert) (now : ℚ)
    (ko : ℤ → Bool) (g : ℤ → Option ProcInfo) :
    ∀ q ∈ st.killed_pids, q ∈ (integrateAlert st alert now ko g).1.killed_pids := by
  rcases alert with _ | a
  · intro q hq
    rw [(integrateAlert_none_fields st now ko g).2.2.2.2.1]
    exact hq
  · intro q hq
    rcases integrateAlert_kill_cases st a now ko g with ⟨_, hk⟩ | ⟨p, _, _, _, _, _, hor, _⟩
    · rw [hk]
      exact hq
    · rcases hor with ⟨_, hk⟩ | ⟨_, hk⟩
      · rw [hk]
        exact insertKilled_mem_of_mem p _ hq
      · rw [hk]
        exact hq

theorem integrateAlert_attempt (st : BackendState) (alert : Option Alert) (now : ℚ)
    (ko : ℤ → Bool) (g : ℤ → Option ProcInfo) :
    ∀ pk ∈ (integrateAlert st alert now ko g).2,
      pk.1 ∉ st.killed_pids ∧
      (pk.2 = true → pk.1 ∈ (integrateAlert st alert now ko g).1.killed_pids) := by
  rcases alert with _ | a
  · intro pk hpk
    rw [(integrateAlert_none_fields st now ko g).2.2.2.2.2] at hpk
    simp at hpk
  · intro pk hpk
    rcases integrateAlert_kill_cases st a now ko g with ⟨hk2, _⟩ |
      ⟨p, hp, hp0, hpnot, hrk, hk2, hor, _⟩
    · rw [hk2] at hpk
      simp at hpk
    · rw [hk2] at hpk
      have hpk' : pk = (p, ko p) := List.mem_singleton.mp hpk
      subst hpk'
      refine ⟨hpnot, fun htrue => ?_⟩
      rcases hor with ⟨hko, hk⟩ | ⟨hko, hk⟩
      · rw [hk]
        exact insertKilled_mem_self p _
      · exact absurd (htrue : ko p = true) (by rw [hko]; simp)

theorem runIntegrator_props
    (inputs : List (Option Alert × ℚ × (ℤ → Bool) × (ℤ → Option ProcInfo))) :
    ∀ st : BackendState,
      (∀ q ∈ st.killed_pids, q ∈ (runIntegrator st inputs).1.killed_pids) ∧
      (∀ pk ∈ (runIntegrator st inputs).2, pk.1 ∉ st.killed_pids ∧
        (pk.2 = true → pk.1 ∈ (runIntegrator st inputs).1.killed_pids)) ∧
      (((runIntegrator st inputs).2.filter (fun k => k.2)).map (fun k => k.1)).Nodup := by
  induction inputs with
  | nil =>
    intro st
    refine ⟨fun q hq => ?_, fun pk hpk => ?_, ?_⟩
    · simpa [runIntegrator] using hq
    · simp [runIntegrator] at hpk
    · simp [runIntegrator]
  | cons i rest ih =>
    intro st
    have hstep_mono := integrateAlert_killed_monotone st i.1 i.2.1 i.2.2.1 i.2.2.2
    have hstep_att := integrateAlert_attempt st i.1 i.2.1 i.2.2.1 i.2.2.2
    have hrest := ih (integrateAlert st i.1 i.2.1 i.2.2.1 i.2.2.2).1
    have hrun : runIntegrator st (i :: rest) =
        ((runIntegrator (integrateAlert st i.1 i.2.1 i.2.2.1 i.2.2.2).1 rest).1,
         (integrateAlert st i.1 i.2.1 i.2.2.1 i.2.2.2).2 ++
           (runIntegrator (integrateAlert st i.1 i.2.1 i.2.2.1 i.2.2.2).1 rest).2) := by
      simp [runIntegrator]
    rw [hrun]
    refine ⟨?_, ?_, ?_⟩
    · intro q hq
      exact hrest.1 q (hstep_mono q hq)
    · intro pk hpk
      rcases List.mem_append.mp hpk with hmem | hmem
      · refine ⟨(hstep_att pk hmem).1, fun ht => ?_⟩
        exact hrest.1 pk.1 ((hstep_att pk hmem).2 ht)
      · refine ⟨fun hin => (hrest.2.1 pk hmem).1 (hstep_mono pk.1 hin), (hrest.2.1 pk hmem).2⟩
    · rw [List.filter_append, List.map_append]
      rw [List.nodup_append]
      refine ⟨?_, hrest.2.2, ?_⟩
      · rcases hi : i.1 with _ | a
        · rw [(integrateAlert_none_fields st i.2.1 i.2.2.1 i.2.2.2).2.2.2.2.2]
          simp
        · rcases integrateAlert_kill_cases st a i.2.1 i.2.2.1 i.2.2.2 with ⟨hk2, _⟩ |
            ⟨p, _, _, _, _, hk2, _⟩
          · rw [hk2]
            simp
          · rw [hk2]
            cases hko : i.2.2.1 p <;> simp
      · rcases hi : i.1 with _ | a
        · intro b hb hb'
          rw [(integrateAlert_none_fields st i.2.1 i.2.2.1 i.2.2.2).2.2.2.2.2] at hb
          simp at hb
        · intro b hb hb'
          rw [hi] at hrest
          rcases integrateAlert_kill_cases st a i.2.1 i.2.2.1 i.2.2.2 with ⟨hk2, _⟩ |
            ⟨p, _, _, _, _, hk2, hor, _⟩
          · rw [hk2] at hb
            simp at hb
          · rw [hk2] at hb
            simp only [List.map_eq_map, List.mem_map, List.mem_filter] at hb hb'
            rcases hb with ⟨pk, ⟨hpk1, hpk2⟩, hpk3⟩
            have hpk' : pk = (p, i.2.2.1 p) := List.mem_singleton.mp hpk1
            subst hpk'
            have hko : i.2.2.1 p = true := by simpa using hpk2
            have hpmem : p ∈ (integrateAlert st (some a) i.2.1 i.2.2.1 i.2.2.2).1.killed_pids := by
              rcases hor with ⟨_, hk⟩ | ⟨hko2, _⟩
              · rw [hk]
                exact insertKilled_mem_self p _
              · rw [hko2] at hko
                exact absurd hko (by simp)
            rcases hb' with ⟨pk', ⟨hpk1', _⟩, hpk3'⟩
            have := (hrest.2.1 pk' hpk1').1
            rw [hpk3'] at this
            rw [← hpk3] at this
            exact this hpmem
    

/-- Claim C3: across every event stream processed by a started
    integrator, `killed_pids` grows monotonically (no element is ever
    removed while scanning); a kill is invoked for a pid only when the
    smoothed risk exceeds `critical_threshold = 0.85`, the alert's pid is
    present (non-null, non-zero), and that pid is not already in
    `killed_pids`; on a successful kill the pid is inserted into
    `killed_pids`, and consequently no pid is ever successfully killed
    twice (the successful kill pids of any run are duplicate-free). -/
theorem claim_C3_killed_monotone_unique (st : BackendState)
    (inputs : List (Option Alert × ℚ × (ℤ → Bool) × (ℤ → Option ProcInfo))) :
    (∀ q ∈ st.killed_pids, q ∈ (runIntegrator st inputs).1.killed_pids) ∧
    (∀ pk ∈ (runIntegrator st inputs).2, pk.1 ∉ st.killed_pids) ∧
    (((runIntegrator st inputs).2.filter (fun k => k.2)).map (fun k => k.1)).Nodup ∧
    (∀ (alert : Option Alert) (now : ℚ) (ko : ℤ → Bool) (g : ℤ → Option ProcInfo)
        (p : ℤ) (ok : Bool), (p, ok) ∈ (integrateAlert st alert now ko g).2 →
      (∃ a, alert = some a ∧ a.pid = some p ∧ p ≠ 0) ∧
      p ∉ st.killed_pids ∧ ok = ko p ∧
      (17/20 : ℚ) < (integrateAlert st alert now ko g).1.risk_score ∧
      (17/20 : ℚ) < (integrateAlert st alert now ko g).1.smoothed_risk ∧
      (ok = true → p ∈ (integrateAlert st alert now ko g).1.killed_pids)) := by
  have hprops := runIntegrator_props inputs st
  refine ⟨hprops.1, fun pk hpk => (hprops.2.1 pk hpk).1, hprops.2.2, ?_⟩
  intro alert now ko g p ok hmem
  rcases alert with _ | a
  · rw [(integrateAlert_none_fields st now ko g).2.2.2.2.2] at hmem
    simp at hmem
  · rcases integrateAlert_kill_cases st a now ko g with ⟨hk2, _⟩ |
      ⟨p2, hp2, h02, hnot2, hrk2, hk2, hor2⟩
    · rw [hk2] at hmem
      simp at hmem
    · rw [hk2] at hmem
      have hpair := List.mem_singleton.mp hmem
      have hpp : p = p2 := congrArg Prod.fst hpair
      have hok : ok = ko p2 := congrArg Prod.snd hpair
      subst hpp
      have hf := integrateAlert_some_fields st a now ko g
      refine ⟨⟨a, rfl, hp2, h02⟩, hnot2, by rw [hok], ?_, ?_, ?_⟩
      · rw [hf.2.1, hf.1]
        exact hrk2
      · rw [hf.1]
        exact smoothed_gt_crit_of_risk hrk2
      · intro hoktrue
        rcases hor2 with ⟨_, hk⟩ | ⟨hko2, _⟩
        · rw [hk]
          exact insertKilled_mem_self p _
        · rw [hok] at hoktrue
          rw [hko2] at hoktrue
          exact absurd hoktrue (by simp)

/-- Claim C10 (amended: the critical tier compares the displayed
    `risk_score` — the smoothed risk clamped to [0,1] and rounded to 4
    decimals — with the critical threshold 0.85, not the raw smoothed
    risk): when `kill_process(pid)` fails, the pid is NOT inserted into
    `killed_pids` and the appended record's status is `"Kill Failed"`;
    hence any later event satisfying the response gate whose displayed
    risk_score exceeds the critical threshold and carrying the same
    (still unkilled) pid invokes `kill_process` again — kill attempts for
    a pid stop permanently only after one successful kill. -/
theorem claim_C10_kill_retry :
    (∀ (st : BackendState) (alert : Option Alert) (now : ℚ) (ko : ℤ → Bool)
        (g : ℤ → Option ProcInfo) (p : ℤ),
       (p, false) ∈ (integrateAlert st alert now ko g).2 →
       (integrateAlert st alert now ko g).1.killed_pids = st.killed_pids ∧
       p ∉ (integrateAlert st alert now ko g).1.killed_pids ∧
       (∃ r, (integrateAlert st alert now ko g).1.flagged = st.flagged ++ [r] ∧
             r.status = "Kill Failed")) ∧
    (∀ (st : BackendState) (a : Alert) (now : ℚ) (ko : ℤ → Bool)
        (g : ℤ → Option ProcInfo) (p : ℤ),
       a.pid = some p → p ≠ 0 → p ∉ st.killed_pids →
       3 ≤ (integrateAlert st (some a) now ko g).1.consecutive_alerts →
       (17/20 : ℚ) < (integrateAlert st (some a) now ko g).1.risk_score →
       (integrateAlert st (some a) now ko g).2 = [(p, ko p)]) := by
  constructor
  · intro st alert now ko g p hmem
    rcases alert with _ | a
    · rw [(integrateAlert_none_fields st now ko g).2.2.2.2.2] at hmem
      simp at hmem
    · rcases integrateAlert_kill_cases st a now ko g with ⟨hk2, _⟩ |
        ⟨p2, hp2, h02, hnot2, hrk2, hk2, hor2, hrec2⟩
      · rw [hk2] at hmem
        simp at hmem
      · rw [hk2] at hmem
        have hpair := List.mem_singleton.mp hmem
        have hpp : p = p2 := congrArg Prod.fst hpair
        have hko : false = ko p2 := congrArg Prod.snd hpair
        subst hpp
        rcases hor2 with ⟨hkt, _⟩ | ⟨hkf, hkeq⟩
        · rw [hkt] at hko
          exact absurd hko.symm (by simp)
        · refine ⟨hkeq, by rw [hkeq]; exact hnot2, ?_⟩
          rcases hrec2 with ⟨r, hr1, hr2⟩
          refine ⟨r, hr1, ?_⟩
          rw [hr2, hkf]
          simp
  · intro st a now ko g p hp hp0 hpnot hca hrk
    have hf := integrateAlert_some_fields st a now ko g
    rw [hf.2.2] at hca
    rw [hf.2.1, hf.1] at hrk
    have hg2 : 3 ≤ st.consecutive_alerts + 1 ∧
        (1/2:ℚ) < round4 (clamp01
          ((if st.smoothed_risk < clamp01 (3/10 + (st.threshold - a.score) * (5/2))
            then (1/2:ℚ) else 2/25) * clamp01 (3/10 + (st.threshold - a.score) * (5/2)) +
           (1 - (if st.smoothed_risk < clamp01 (3/10 + (st.threshold - a.score) * (5/2))
                 then (1/2:ℚ) else 2/25)) * st.smoothed_risk)) :=
      ⟨hca, lt_trans (by norm_num) hrk⟩
    have hc2 : (17/20:ℚ) < round4 (clamp01
          ((if st.smoothed_risk < clamp01 (3/10 + (st.threshold - a.score) * (5/2))
            then (1/2:ℚ) else 2/25) * clamp01 (3/10 + (st.threshold - a.score) * (5/2)) +
           (1 - (if st.smoothed_risk < clamp01 (3/10 + (st.threshold - a.score) * (5/2))
                 then (1/2:ℚ) else 2/25)) * st.smoothed_risk)) ∧ p ≠ 0 ∧ p ∉ st.killed_pids :=
      ⟨hrk, hp0, hpnot⟩
    unfold integrateAlert
    dsimp only
    rw [hp]
    rw [if_pos hg2]
    simp only [hc2, if_true, iff_true, eq_self_iff_true]
    simp [hc2.2.1]
    cases hko : ko p <;> simp

set_option maxHeartbeats 1000000 in
theorem claim_C3_kill_witness :
    ((4242 : ℤ), true) ∈ (integrateAlert
      (integrateAlert (integrateAlert bW (some alertKill) 100 koTrue piNone).1
        (some alertKill) 100 koTrue piNone).1 (some alertKill) 100 koTrue piNone).2 ∧
    (17/20 : ℚ) < (integrateAlert
      (integrateAlert (integrateAlert bW (some alertKill) 100 koTrue piNone).1
        (some alertKill) 100 koTrue piNone).1 (some alertKill) 100 koTrue piNone).1.smoothed_risk ∧
    (4242 : ℤ) ∈ (integrateAlert
      (integrateAlert (integrateAlert bW (some alertKill) 100 koTrue piNone).1
        (some alertKill) 100 koTrue piNone).1 (some alertKill) 100 koTrue piNone).1.killed_pids := by
  have hbca : bW.consecutive_alerts = 0 := rfl
  have hg1 : ¬ (3 ≤ bW.consecutive_alerts + 1 ∧
      (1/2:ℚ) < round4 (clamp01
        ((if bW.smoothed_risk < clamp01 (3/10 + (bW.threshold - alertKill.score) * (5/2))
          then (1/2:ℚ) else 2/25) * clamp01 (3/10 + (bW.threshold - alertKill.score) * (5/2)) +
         (1 - (if bW.smoothed_risk < clamp01 (3/10 + (bW.threshold - alertKill.score) * (5/2))
               then (1/2:ℚ) else 2/25)) * bW.smoothed_risk))) := by
    rintro ⟨h1, _⟩
    rw [hbca] at h1
    omega
  have e1 := integrateAlert_step_eq bW alertKill 100 koTrue piNone hg1
  have h1ca : (integrateAlert bW (some alertKill) 100 koTrue piNone).1.consecutive_alerts = 1 := by
    rw [e1, hbca]
  have h1sm : (integrateAlert bW (some alertKill) 100 koTrue piNone).1.smoothed_risk = 1/2 := by
    rw [e1]
    show (if bW.smoothed_risk < clamp01 (3/10 + (bW.threshold - alertKill.score) * (5/2))
          then (1/2:ℚ) else 2/25) * clamp01 (3/10 + (bW.threshold - alertKill.score) * (5/2)) +
         (1 - (if bW.smoothed_risk < clamp01 (3/10 + (bW.threshold - alertKill.score) * (5/2))
               then (1/2:ℚ) else 2/25)) * bW.smoothed_risk = 1/2
    have hsm0 : bW.smoothed_risk = 0 := rfl
    have hth0 : bW.threshold = -(1/2) := rfl
    rw [hsm0, hth0]
    norm_num [alertKill, mkAlert, clamp01, min_def, max_def]
  have h1th : (integrateAlert bW (some alertKill) 100 koTrue piNone).1.threshold = -(1/2) := by
    rw [e1]
    rfl
  have h1kl : (integrateAlert bW (some alertKill) 100 koTrue piNone).1.killed_pids = [] := by
    rw [e1]
    rfl
  have h1ll : (integrateAlert bW (some alertKill) 100 koTrue piNone).1.last_log_time = 0 := by
    rw [e1]
    rfl
  have hg2 : ¬ (3 ≤ (integrateAlert bW (some alertKill) 100 koTrue piNone).1.consecutive_alerts + 1 ∧
      (1/2:ℚ) < round4 (clamp01
        ((if (integrateAlert bW (some alertKill) 100 koTrue piNone).1.smoothed_risk <
              clamp01 (3/10 + ((integrateAlert bW (some alertKill) 100 koTrue piNone).1.threshold - alertKill.score) * (5/2))
          then (1/2:ℚ) else 2/25) *
            clamp01 (3/10 + ((integrateAlert bW (some alertKill) 100 koTrue piNone).1.threshold - alertKill.score) * (5/2)) +
         (1 - (if (integrateAlert bW (some alertKill) 100 koTrue piNone).1.smoothed_risk <
                   clamp01 (3/10 + ((integrateAlert bW (some alertKill) 100 koTrue piNone).1.threshold - alertKill.score) * (5/2))
               then (1/2:ℚ) else 2/25)) *
           (integrateAlert bW (some alertKill) 100 koTrue piNone).1.smoothed_risk))) := by
    rintro ⟨h1, _⟩
    rw [h1ca] at h1
    omega
  have e2 := integrateAlert_step_eq (integrateAlert bW (some alertKill) 100 koTrue piNone).1
    alertKill 100 koTrue piNone hg2
  have h2ca : (integrateAlert (integrateAlert bW (some alertKill) 100 koTrue piNone).1
      (some alertKill) 100 koTrue piNone).1.consecutive_alerts = 2 := by
    rw [e2, h1ca]
  have h2sm : (integrateAlert (integrateAlert bW (some alertKill) 100 koTrue piNone).1
      (some alertKill) 100 koTrue piNone).1.smoothed_risk = 3/4 := by
    rw [e2]
    show (if (integrateAlert bW (some alertKill) 100 koTrue piNone).1.smoothed_risk <
             clamp01 (3/10 + ((integrateAlert bW (some alertKill) 100 koTrue piNone).1.threshold - alertKill.score) * (5/2))
          then (1/2:ℚ) else 2/25) *
           clamp01 (3/10 + ((integrateAlert bW (some alertKill) 100 koTrue piNone).1.threshold - alertKill.score) * (5/2)) +
         (1 - (if (integrateAlert bW (some alertKill) 100 koTrue piNone).1.smoothed_risk <
                  clamp01 (3/10 + ((integrateAlert bW (some alertKill) 100 koTrue piNone).1.threshold - alertKill.score) * (5/2))
               then (1/2:ℚ) else 2/25)) *
           (integrateAlert bW (some alertKill) 100 koTrue piNone).1.smoothed_risk = 3/4
    rw [h1sm, h1th]
    norm_num [alertKill, mkAlert, clamp01, min_def, max_def]
  have h2th : (integrateAlert (integrateAlert bW (some alertKill) 100 koTrue piNone).1
      (some alertKill) 100 koTrue piNone).1.threshold = -(1/2) := by
    rw [e2]
    exact h1th
  have h2kl : (integrateAlert (integrateAlert bW (some alertKill) 100 koTrue piNone).1
      (some alertKill) 100 koTrue piNone).1.killed_pids = [] := by
    rw [e2]
    exact h1kl
  have h2ll : (integrateAlert (integrateAlert bW (some alertKill) 100 koTrue piNone).1
      (some alertKill) 100 koTrue piNone).1.last_log_time = 0 := by
    rw [e2]
    exact h1ll
  have hrk3 : (1:ℚ)/2 < round4 (clamp01
        ((if (integrateAlert (integrateAlert bW (some alertKill) 100 koTrue piNone).1
              (some alertKill) 100 koTrue piNone).1.smoothed_risk <
              clamp01 (3/10 + ((integrateAlert (integrateAlert bW (some alertKill) 100 koTrue piNone).1
                (some alertKill) 100 koTrue piNone).1.threshold - alertKill.score) * (5/2))
          then (1/2:ℚ) else 2/25) *
            clamp01 (3/10 + ((integrateAlert (integrateAlert bW (some alertKill) 100 koTrue piNone).1
              (some alertKill) 100 koTrue piNone).1.threshold - alertKill.score) * (5/2)) +
         (1 - (if (integrateAlert (integrateAlert bW (some alertKill) 100 koTrue piNone).1
                   (some alertKill) 100 koTrue piNone).1.smoothed_risk <
                   clamp01 (3/10 + ((integrateAlert (integrateAlert bW (some alertKill) 100 koTrue piNone).1
                     (some alertKill) 100 koTrue piNone).1.threshold - alertKill.score) * (5/2))
               then (1/2:ℚ) else 2/25)) *
           (integrateAlert (integrateAlert bW (some alertKill) 100 koTrue piNone).1
             (some alertKill) 100 koTrue piNone).1.smoothed_risk)) := by
    rw [h2sm, h2th]
    norm_num [alertKill, mkAlert, clamp01, min_def, max_def, round4, roundHalfEven]
  have hcr3 : (17:ℚ)/20 < round4 (clamp01
        ((if (integrateAlert (integrateAlert bW (some alertKill) 100 koTrue piNone).1
              (some alertKill) 100 koTrue piNone).1.smoothed_risk <
              clamp01 (3/10 + ((integrateAlert (integrateAlert bW (some alertKill) 100 koTrue piNone).1
                (some alertKill) 100 koTrue piNone).1.threshold - alertKill.score) * (5/2))
          then (1/2:ℚ) else 2/25) *
            clamp01 (3/10 + ((integrateAlert (integrateAlert bW (some alertKill) 100 koTrue piNone).1
              (some alertKill) 100 koTrue piNone).1.threshold - alertKill.score) * (5/2)) +
         (1 - (if (integrateAlert (integrateAlert bW (some alertKill) 100 koTrue piNone).1
                   (some alertKill) 100 koTrue piNone).1.smoothed_risk <
                   clamp01 (3/10 + ((integrateAlert (integrateAlert bW (some alertKill) 100 koTrue piNone).1
                     (some alertKill) 100 koTrue piNone).1.threshold - alertKill.score) * (5/2))
               then (1/2:ℚ) else 2/25)) *
           (integrateAlert (integrateAlert bW (some alertKill) 100 koTrue piNone).1
             (some alertKill) 100 koTrue piNone).1.smoothed_risk)) := by
    rw [h2sm, h2th]
    norm_num [alertKill, mkAlert, clamp01, min_def, max_def, round4, roundHalfEven]
  have e3 := integrateAlert_step_kill_eq
    (integrateAlert (integrateAlert bW (some alertKill) 100 koTrue piNone).1
      (some alertKill) 100 koTrue piNone).1 alertKill 100 koTrue piNone 4242
    rfl
    (by
      constructor
      · rw [h2ca]
      · exact hrk3)
    (by
      refine ⟨hcr3, by norm_num, ?_⟩
      rw [h2kl]
      simp)
    rfl
    (by
      rw [h2ll]
      norm_num)
  have hmem : ((4242 : ℤ), true) ∈ (integrateAlert
      (integrateAlert (integrateAlert bW (some alertKill) 100 koTrue piNone).1
        (some alertKill) 100 koTrue piNone).1 (some alertKill) 100 koTrue piNone).2 := by
    rw [e3]
    simp
  have happ := (claim_C3_killed_monotone_unique
    (integrateAlert (integrateAlert bW (some alertKill) 100 koTrue piNone).1
      (some alertKill) 100 koTrue piNone).1 []).2.2.2
    (some alertKill) 100 koTrue piNone 4242 true hmem
  exact ⟨hmem, happ.2.2.2.2.1, happ.2.2.2.2.2 rfl⟩

set_option maxHeartbeats 1000000 in
theorem claim_C10_retry_witness :
    ((4242 : ℤ), false) ∈ (integrateAlert
      (integrateAlert (integrateAlert bW (some alertKill) 100 koFalse piNone).1
        (some alertKill) 100 koFalse piNone).1 (some alertKill) 100 koFalse piNone).2 ∧
    (integrateAlert
      (integrateAlert (integrateAlert bW (some alertKill) 100 koFalse piNone).1
        (some alertKill) 100 koFalse piNone).1 (some alertKill) 100 koFalse piNone).1.killed_pids =
      (integrateAlert (integrateAlert bW (some alertKill) 100 koFalse piNone).1
        (some alertKill) 100 koFalse piNone).1.killed_pids ∧
    (∃ r, (integrateAlert
      (integrateAlert (integrateAlert bW (some alertKill) 100 koFalse piNone).1
        (some alertKill) 100 koFalse piNone).1 (some alertKill) 100 koFalse piNone).1.flagged =
      (integrateAlert (integrateAlert bW (some alertKill) 100 koFalse piNone).1
        (some alertKill) 100 koFalse piNone).1.flagged ++ [r] ∧ r.status = "Kill Failed") ∧
    (integrateAlert (integrateAlert
      (integrateAlert (integrateAlert bW (some alertKill) 100 koFalse piNone).1
        (some alertKill) 100 koFalse piNone).1 (some alertKill) 100 koFalse piNone).1
      (some alertKill) 200 koFalse piNone).2 = [((4242 : ℤ), koFalse 4242)] := by
  have hbca : bW.consecutive_alerts = 0 := rfl
  have hg1 : ¬ (3 ≤ bW.consecutive_alerts + 1 ∧
      (1/2:ℚ) < round4 (clamp01
        ((if bW.smoothed_risk < clamp01 (3/10 + (bW.threshold - alertKill.score) * (5/2))
          then (1/2:ℚ) else 2/25) * clamp01 (3/10 + (bW.threshold - alertKill.score) * (5/2)) +
         (1 - (if bW.smoothed_risk < clamp01 (3/10 + (bW.threshold - alertKill.score) * (5/2))
               then (1/2:ℚ) else 2/25)) * bW.smoothed_risk))) := by
    rintro ⟨h1, _⟩
    rw [hbca] at h1
    omega
  have e1 := integrateAlert_step_eq bW alertKill 100 koFalse piNone hg1
  have h1ca : (integrateAlert bW (some alertKill) 100 koFalse piNone).1.consecutive_alerts = 1 := by
    rw [e1, hbca]
  have h1sm : (integrateAlert bW (some alertKill) 100 koFalse piNone).1.smoothed_risk = 1/2 := by
    rw [e1]
    show (if bW.smoothed_risk < clamp01 (3/10 + (bW.threshold - alertKill.score) * (5/2))
          then (1/2:ℚ) else 2/25) * clamp01 (3/10 + (bW.threshold - alertKill.score) * (5/2)) +
         (1 - (if bW.smoothed_risk < clamp01 (3/10 + (bW.threshold - alertKill.score) * (5/2))
               then (1/2:ℚ) else 2/25)) * bW.smoothed_risk = 1/2
    have hsm0 : bW.smoothed_risk = 0 := rfl
    have hth0 : bW.threshold = -(1/2) := rfl
    rw [hsm0, hth0]
    norm_num [alertKill, mkAlert, clamp01, min_def, max_def]
  have h1th : (integrateAlert bW (some alertKill) 100 koFalse piNone).1.threshold = -(1/2) := by
    rw [e1]
    rfl
  have h1kl : (integrateAlert bW (some alertKill) 100 koFalse piNone).1.killed_pids = [] := by
    rw [e1]
    rfl
  have h1ll : (integrateAlert bW (some alertKill) 100 koFalse piNone).1.last_log_time = 0 := by
    rw [e1]
    rfl
  have hg2 : ¬ (3 ≤ (integrateAlert bW (some alertKill) 100 koFalse piNone).1.consecutive_alerts + 1 ∧
      (1/2:ℚ) < round4 (clamp01
        ((if (integrateAlert bW (some alertKill) 100 koFalse piNone).1.smoothed_risk <
              clamp01 (3/10 + ((integrateAlert bW (some alertKill) 100 koFalse piNone).1.threshold - alertKill.score) * (5/2))
          then (1/2:ℚ) else 2/25) *
            clamp01 (3/10 + ((integrateAlert bW (some alertKill) 100 koFalse piNone).1.threshold - alertKill.score) * (5/2)) +
         (1 - (if (integrateAlert bW (some alertKill) 100 koFalse piNone).1.smoothed_risk <
                   clamp01 (3/10 + ((integrateAlert bW (some alertKill) 100 koFalse piNone).1.threshold - alertKill.score) * (5/2))
               then (1/2:ℚ) else 2/25)) *
           (integrateAlert bW (some alertKill) 100 koFalse piNone).1.smoothed_risk))) := by
    rintro ⟨h1, _⟩
    rw [h1ca] at h1
    omega
  have e2 := integrateAlert_step_eq (integrateAlert bW (some alertKill) 100 koFalse piNone).1
    alertKill 100 koFalse piNone hg2
  have h2ca : (integrateAlert (integrateAlert bW (some alertKill) 100 koFalse piNone).1
      (some alertKill) 100 koFalse piNone).1.consecutive_alerts = 2 := by
    rw [e2, h1ca]
  have h2sm : (integrateAlert (integrateAlert bW (some alertKill) 100 koFalse piNone).1
      (some alertKill) 100 koFalse piNone).1.smoothed_risk = 3/4 := by
    rw [e2]
    show (if (integrateAlert bW (some alertKill) 100 koFalse piNone).1.smoothed_risk <
             clamp01 (3/10 + ((integrateAlert bW (some alertKill) 100 koFalse piNone).1.threshold - alertKill.score) * (5/2))
          then (1/2:ℚ) else 2/25) *
           clamp01 (3/10 + ((integrateAlert bW (some alertKill) 100 koFalse piNone).1.threshold - alertKill.score) * (5/2)) +
         (1 - (if (integrateAlert bW (some alertKill) 100 koFalse piNone).1.smoothed_risk <
                  clamp01 (3/10 + ((integrateAlert bW (some alertKill) 100 koFalse piNone).1.threshold - alertKill.score) * (5/2))
               then (1/2:ℚ) else 2/25)) *
           (integrateAlert bW (some alertKill) 100 koFalse piNone).1.smoothed_risk = 3/4
    rw [h1sm, h1th]
    norm_num [alertKill, mkAlert, clamp01, min_def, max_def]
  have h2th : (integrateAlert (integrateAlert bW (some alertKill) 100 koFalse piNone).1
      (some alertKill) 100 koFalse piNone).1.threshold = -(1/2) := by
    rw [e2]
    exact h1th
  have h2kl : (integrateAlert (integrateAlert bW (some alertKill) 100 koFalse piNone).1
      (some alertKill) 100 koFalse piNone).1.killed_pids = [] := by
    rw [e2]
    exact h1kl
  have h2ll : (integrateAlert (integrateAlert bW (some alertKill) 100 koFalse piNone).1
      (some alertKill) 100 koFalse piNone).1.last_log_time = 0 := by
    rw [e2]
    exact h1ll
  have hrk3 : (1:ℚ)/2 < round4 (clamp01
        ((if (integrateAlert (integrateAlert bW (some alertKill) 100 koFalse piNone).1
              (some alertKill) 100 koFalse piNone).1.smoothed_risk <
              clamp01 (3/10 + ((integrateAlert (integrateAlert bW (some alertKill) 100 koFalse piNone).1
                (some alertKill) 100 koFalse piNone).1.threshold - alertKill.score) * (5/2))
          then (1/2:ℚ) else 2/25) *
            clamp01 (3/10 + ((integrateAlert (integrateAlert bW (some alertKill) 100 koFalse piNone).1
              (some alertKill) 100 koFalse piNone).1.threshold - alertKill.score) * (5/2)) +
         (1 - (if (integrateAlert (integrateAlert bW (some alertKill) 100 koFalse piNone).1
                   (some alertKill) 100 koFalse piNone).1.smoothed_risk <
                   clamp01 (3/10 + ((integrateAlert (integrateAlert bW (some alertKill) 100 koFalse piNone).1
                     (some alertKill) 100 koFalse piNone).1.threshold - alertKill.score) * (5/2))
               then (1/2:ℚ) else 2/25)) *
           (integrateAlert (integrateAlert bW (some alertKill) 100 koFalse piNone).1
             (some alertKill) 100 koFalse piNone).1.smoothed_risk)) := by
    rw [h2sm, h2th]
    norm_num [alertKill, mkAlert, clamp01, min_def, max_def, round4, roundHalfEven]
  have hcr3 : (17:ℚ)/20 < round4 (clamp01
        ((if (integrateAlert (integrateAlert bW (some alertKill) 100 koFalse piNone).1
              (some alertKill) 100 koFalse piNone).1.smoothed_risk <
              clamp01 (3/10 + ((integrateAlert (integrateAlert bW (some alertKill) 100 koFalse piNone).1
                (some alertKill) 100 koFalse piNone).1.threshold - alertKill.score) * (5/2))
          then (1/2:ℚ) else 2/25) *
            clamp01 (3/10 + ((integrateAlert (integrateAlert bW (some alertKill) 100 koFalse piNone).1
              (some alertKill) 100 koFalse piNone).1.threshold - alertKill.score) * (5/2)) +
         (1 - (if (integrateAlert (integrateAlert bW (some alertKill) 100 koFalse piNone).1
                   (some alertKill) 100 koFalse piNone).1.smoothed_risk <
                   clamp01 (3/10 + ((integrateAlert (integrateAlert bW (some alertKill) 100 koFalse piNone).1
                     (some alertKill) 100 koFalse piNone).1.threshold - alertKill.score) * (5/2))
               then (1/2:ℚ) else 2/25)) *
           (integrateAlert (integrateAlert bW (some alertKill) 100 koFalse piNone).1
             (some alertKill) 100 koFalse piNone).1.smoothed_risk)) := by
    rw [h2sm, h2th]
    norm_num [alertKill, mkAlert, clamp01, min_def, max_def, round4, roundHalfEven]
  have e3 := integrateAlert_step_killfail_eq
    (integrateAlert (integrateAlert bW (some alertKill) 100 koFalse piNone).1
      (some alertKill) 100 koFalse piNone).1 alertKill 100 koFalse piNone 4242
    rfl
    (by
      constructor
      · rw [h2ca]
      · exact hrk3)
    (by
      refine ⟨hcr3, by norm_num, ?_⟩
      rw [h2kl]
      simp)
    rfl
    (by
      rw [h2ll]
      norm_num)
  have hmem : ((4242 : ℤ), false) ∈ (integrateAlert
      (integrateAlert (integrateAlert bW (some alertKill) 100 koFalse piNone).1
        (some alertKill) 100 koFalse piNone).1 (some alertKill) 100 koFalse piNone).2 := by
    rw [e3]
    simp
  have hfail := claim_C10_kill_retry.1
    (integrateAlert (integrateAlert bW (some alertKill) 100 koFalse piNone).1
      (some alertKill) 100 koFalse piNone).1 (some alertKill) 100 koFalse piNone 4242 hmem
  have h3ca : (integrateAlert
      (integrateAlert (integrateAlert bW (some alertKill) 100 koFalse piNone).1
        (some alertKill) 100 koFalse piNone).1 (some alertKill) 100 koFalse piNone).1.consecutive_alerts = 3 := by
    rw [e3, h2ca]
  have h3sm : (integrateAlert
      (integrateAlert (integrateAlert bW (some alertKill) 100 koFalse piNone).1
        (some alertKill) 100 koFalse piNone).1 (some alertKill) 100 koFalse piNone).1.smoothed_risk = 7/8 := by
    rw [e3]
    show (if (integrateAlert (integrateAlert bW (some alertKill) 100 koFalse piNone).1
             (some alertKill) 100 koFalse piNone).1.smoothed_risk <
             clamp01 (3/10 + ((integrateAlert (integrateAlert bW (some alertKill) 100 koFalse piNone).1
               (some alertKill) 100 koFalse piNone).1.threshold - alertKill.score) * (5/2))
          then (1/2:ℚ) else 2/25) *
           clamp01 (3/10 + ((integrateAlert (integrateAlert bW (some alertKill) 100 koFalse piNone).1
             (some alertKill) 100 koFalse piNone).1.threshold - alertKill.score) * (5/2)) +
         (1 - (if (integrateAlert (integrateAlert bW (some alertKill) 100 koFalse piNone).1
                  (some alertKill) 100 koFalse piNone).1.smoothed_risk <
                  clamp01 (3/10 + ((integrateAlert (integrateAlert bW (some alertKill) 100 koFalse piNone).1
                    (some alertKill) 100 koFalse piNone).1.threshold - alertKill.score) * (5/2))
               then (1/2:ℚ) else 2/25)) *
           (integrateAlert (integrateAlert bW (some alertKill) 100 koFalse piNone).1
             (some alertKill) 100 koFalse piNone).1.smoothed_risk = 7/8
    rw [h2sm, h2th]
    norm_num [alertKill, mkAlert, clamp01, min_def, max_def]
  have h3th : (integrateAlert
      (integrateAlert (integrateAlert bW (some alertKill) 100 koFalse piNone).1
        (some alertKill) 100 koFalse piNone).1 (some alertKill) 100 koFalse piNone).1.threshold = -(1/2) := by
    rw [e3]
    exact h2th
  have hf4 := integrateAlert_some_fields (integrateAlert
      (integrateAlert (integrateAlert bW (some alertKill) 100 koFalse piNone).1
        (some alertKill) 100 koFalse piNone).1 (some alertKill) 100 koFalse piNone).1
    alertKill 200 koFalse piNone
  have hca4 : 3 ≤ (integrateAlert (integrateAlert
      (integrateAlert (integrateAlert bW (some alertKill) 100 koFalse piNone).1
        (some alertKill) 100 koFalse piNone).1 (some alertKill) 100 koFalse piNone).1
      (some alertKill) 200 koFalse piNone).1.consecutive_alerts := by
    rw [hf4.2.2, h3ca]
    omega
  have hrk4 : (17:ℚ)/20 < (integrateAlert (integrateAlert
      (integrateAlert (integrateAlert bW (some alertKill) 100 koFalse piNone).1
        (some alertKill) 100 koFalse piNone).1 (some alertKill) 100 koFalse piNone).1
      (some alertKill) 200 koFalse piNone).1.risk_score := by
    rw [hf4.2.1, hf4.1]
    rw [h3sm, h3th]
    norm_num [alertKill, mkAlert, clamp01, min_def, max_def, round4, roundHalfEven]
  refine ⟨hmem, hfail.1, hfail.2.2, ?_⟩
  refine claim_C10_kill_retry.2 _ alertKill 200 koFalse piNone 4242 rfl (by norm_num) ?_ hca4 hrk4
  rw [hfail.1, h2kl]
  simp

/-- C10 counterexample: after a failed kill of pid 4242 (smoothed risk
    7/8, record status "Kill Failed", pid not inserted), the next alert
    for the same pid drives the smoothed risk to exactly 0.85002 —
    strictly above the critical threshold 0.85 — but the displayed
    risk_score rounds to 0.8500; the response gate fires
    (consecutive_alerts = 4, risk_score = 0.85 > 0.5) and the pid is
    still unkilled, yet no kill is invoked, because the code compares
    the rounded risk_score, not the raw smoothed risk, with the critical
    threshold. -/
theorem claim_C10_counterexample :
    resK3.2 = [(4242, false)] ∧
    resK3.1.killed_pids = [] ∧
    (∃ r, resK3.1.flagged = [r] ∧ r.status = "Kill Failed") ∧
    alertY.pid = some 4242 ∧ (4242 : ℤ) ≠ 0 ∧
    resK4.1.consecutive_alerts = 4 ∧
    resK4.1.smoothed_risk = 42501/50000 ∧
    (17/20 : ℚ) < 42501/50000 ∧
    resK4.1.risk_score = 17/20 ∧
    ((1/2 : ℚ) < 17/20) ∧ ¬ ((17/20 : ℚ) < 17/20) ∧
    resK4.2 = [] ∧
    resK4.1.killed_pids = [] := by
  have hbca : bW.consecutive_alerts = 0 := rfl
  have hbsm : bW.smoothed_risk = 0 := rfl
  have hbth : bW.threshold = -(1/2) := rfl
  have hbfl : bW.flagged = [] := rfl
  have hbkl : bW.killed_pids = [] := rfl
  have hbll : bW.last_log_time = 0 := rfl
  -- step 1: gate closed (consecutive_alerts = 1)
  have hg1 : ¬ (3 ≤ bW.consecutive_alerts + 1 ∧
      (1/2:ℚ) < round4 (clamp01
        ((if bW.smoothed_risk < clamp01 (3/10 + (bW.threshold - alertKill.score) * (5/2))
          then (1/2:ℚ) else 2/25) * clamp01 (3/10 + (bW.threshold - alertKill.score) * (5/2)) +
         (1 - (if bW.smoothed_risk < clamp01 (3/10 + (bW.threshold - alertKill.score) * (5/2))
               then (1/2:ℚ) else 2/25)) * bW.smoothed_risk))) := by
    rintro ⟨h1, _⟩
    rw [hbca] at h1
    omega
  have e1 := integrateAlert_step_eq bW alertKill 100 koFalse piNone hg1
  have hsm1 : (if bW.smoothed_risk < clamp01 (3/10 + (bW.threshold - alertKill.score) * (5/2))
        then (1/2:ℚ) else 2/25) * clamp01 (3/10 + (bW.threshold - alertKill.score) * (5/2)) +
       (1 - (if bW.smoothed_risk < clamp01 (3/10 + (bW.threshold - alertKill.score) * (5/2))
             then (1/2:ℚ) else 2/25)) * bW.smoothed_risk = 1/2 := by
    rw [hbsm, hbth]
    norm_num [alertKill, mkAlert, clamp01, min_def, max_def]
  have h1ca : stK1.consecutive_alerts = 1 := by
    show (integrateAlert bW (some alertKill) 100 koFalse piNone).1.consecutive_alerts = 1
    rw [e1, hbca]
  have h1sm : stK1.smoothed_risk = 1/2 := by
    show (integrateAlert bW (some alertKill) 100 koFalse piNone).1.smoothed_risk = 1/2
    rw [e1]
    exact hsm1
  have h1th : stK1.threshold = -(1/2) := by
    show (integrateAlert bW (some alertKill) 100 koFalse piNone).1.threshold = -(1/2)
    rw [e1]
    exact hbth
  have h1fl : stK1.flagged = [] := by
    show (integrateAlert bW (some alertKill) 100 koFalse piNone).1.flagged = []
    rw [e1]
    exact hbfl
  have h1kl : stK1.killed_pids = [] := by
    show (integrateAlert bW (some alertKill) 100 koFalse piNone).1.killed_pids = []
    rw [e1]
    exact hbkl
  have h1ll : stK1.last_log_time = 0 := by
    show (integrateAlert bW (some alertKill) 100 koFalse piNone).1.last_log_time = 0
    rw [e1]
    exact hbll
  -- step 2: gate closed (consecutive_alerts = 2)
  have hg2 : ¬ (3 ≤ stK1.consecutive_alerts + 1 ∧
      (1/2:ℚ) < round4 (clamp01
        ((if stK1.smoothed_risk < clamp01 (3/10 + (stK1.threshold - alertKill.score) * (5/2))
          then (1/2:ℚ) else 2/25) * clamp01 (3/10 + (stK1.threshold - alertKill.score) * (5/2)) +
         (1 - (if stK1.smoothed_risk < clamp01 (3/10 + (stK1.threshold - alertKill.score) * (5/2))
               then (1/2:ℚ) else 2/25)) * stK1.smoothed_risk))) := by
    rintro ⟨h1, _⟩
    rw [h1ca] at h1
    omega
  have e2 := integrateAlert_step_eq stK1 alertKill 100 koFalse piNone hg2
  have hsm2 : (if stK1.smoothed_risk < clamp01 (3/10 + (stK1.threshold - alertKill.score) * (5/2))
        then (1/2:ℚ) else 2/25) * clamp01 (3/10 + (stK1.threshold - alertKill.score) * (5/2)) +
       (1 - (if stK1.smoothed_risk < clamp01 (3/10 + (stK1.threshold - alertKill.score) * (5/2))
             then (1/2:ℚ) else 2/25)) * stK1.smoothed_risk = 3/4 := by
    rw [h1sm, h1th]
    norm_num [alertKill, mkAlert, clamp01, min_def, max_def]
  have h2ca : stK2.consecutive_alerts = 2 := by
    show (integrateAlert stK1 (some alertKill) 100 koFalse piNone).1.consecutive_alerts = 2
    rw [e2, h1ca]
  have h2sm : stK2.smoothed_risk = 3/4 := by
    show (integrateAlert stK1 (some alertKill) 100 koFalse piNone).1.smoothed_risk = 3/4
    rw [e2]
    exact hsm2
  have h2th : stK2.threshold = -(1/2) := by
    show (integrateAlert stK1 (some alertKill) 100 koFalse piNone).1.threshold = -(1/2)
    rw [e2]
    exact h1th
  have h2fl : stK2.flagged = [] := by
    show (integrateAlert stK1 (some alertKill) 100 koFalse piNone).1.flagged = []
    rw [e2]
    exact h1fl
  have h2kl : stK2.killed_pids = [] := by
    show (integrateAlert stK1 (some alertKill) 100 koFalse piNone).1.killed_pids = []
    rw [e2]
    exact h1kl
  have h2ll : stK2.last_log_time = 0 := by
    show (integrateAlert stK1 (some alertKill) 100 koFalse piNone).1.last_log_time = 0
    rw [e2]
    exact h1ll
  -- step 3: gate and critical tier fire, kill fails
  have hsm3 : (if stK2.smoothed_risk < clamp01 (3/10 + (stK2.threshold - alertKill.score) * (5/2))
        then (1/2:ℚ) else 2/25) * clamp01 (3/10 + (stK2.threshold - alertKill.score) * (5/2)) +
       (1 - (if stK2.smoothed_risk < clamp01 (3/10 + (stK2.threshold - alertKill.score) * (5/2))
             then (1/2:ℚ) else 2/25)) * stK2.smoothed_risk = 7/8 := by
    rw [h2sm, h2th]
    norm_num [alertKill, mkAlert, clamp01, min_def, max_def]
  have hg3 : 3 ≤ stK2.consecutive_alerts + 1 ∧
      (1/2:ℚ) < round4 (clamp01
        ((if stK2.smoothed_risk < clamp01 (3/10 + (stK2.threshold - alertKill.score) * (5/2))
          then (1/2:ℚ) else 2/25) * clamp01 (3/10 + (stK2.threshold - alertKill.score) * (5/2)) +
         (1 - (if stK2.smoothed_risk < clamp01 (3/10 + (stK2.threshold - alertKill.score) * (5/2))
               then (1/2:ℚ) else 2/25)) * stK2.smoothed_risk)) := by
    constructor
    · rw [h2ca]
    · rw [hsm3]
      norm_num [round4, roundHalfEven, clamp01, min_def, max_def]
  have hcrit3 : (17/20:ℚ) < round4 (clamp01
        ((if stK2.smoothed_risk < clamp01 (3/10 + (stK2.threshold - alertKill.score) * (5/2))
          then (1/2:ℚ) else 2/25) * clamp01 (3/10 + (stK2.threshold - alertKill.score) * (5/2)) +
         (1 - (if stK2.smoothed_risk < clamp01 (3/10 + (stK2.threshold - alertKill.score) * (5/2))
               then (1/2:ℚ) else 2/25)) * stK2.smoothed_risk)) ∧
      (4242:ℤ) ≠ 0 ∧ (4242:ℤ) ∉ stK2.killed_pids := by
    refine ⟨?_, by norm_num, by rw [h2kl]; simp⟩
    rw [hsm3]
    norm_num [round4, roundHalfEven, clamp01, min_def, max_def]
  have ht3 : (5:ℚ) ≤ 100 - stK2.last_log_time := by
    rw [h2ll]
    norm_num
  have e3 := integrateAlert_step_killfail_eq stK2 alertKill 100 koFalse piNone 4242 rfl hg3
    hcrit3 rfl ht3
  have h3k2 : resK3.2 = [(4242, false)] := by
    show (integrateAlert stK2 (some alertKill) 100 koFalse piNone).2 = [(4242, false)]
    rw [e3]
  have h3ca : resK3.1.consecutive_alerts = 3 := by
    show (integrateAlert stK2 (some alertKill) 100 koFalse piNone).1.consecutive_alerts = 3
    rw [e3, h2ca]
  have h3sm : resK3.1.smoothed_risk = 7/8 := by
    show (integrateAlert stK2 (some alertKill) 100 koFalse piNone).1.smoothed_risk = 7/8
    rw [e3]
    exact hsm3
  have h3th : resK3.1.threshold = -(1/2) := by
    show (integrateAlert stK2 (some alertKill) 100 koFalse piNone).1.threshold = -(1/2)
    rw [e3]
    exact h2th
  have h3kl : resK3.1.killed_pids = [] := by
    show (integrateAlert stK2 (some alertKill) 100 koFalse piNone).1.killed_pids = []
    rw [e3]
    exact h2kl
  have hex : ∃ r, resK3.1.flagged = [r] ∧ r.status = "Kill Failed" := by
    have h3fl := congrArg (fun s : BackendState × List (ℤ × Bool) => s.1.flagged) e3
    dsimp only at h3fl
    rw [h2fl, List.nil_append] at h3fl
    exact ⟨_, h3fl, rfl⟩
  -- step 4: smoothed risk 0.85002, rounded risk 0.8500, tier does not fire
  have hsm4 : (if resK3.1.smoothed_risk < clamp01 (3/10 + (resK3.1.threshold - alertY.score) * (5/2))
        then (1/2:ℚ) else 2/25) * clamp01 (3/10 + (resK3.1.threshold - alertY.score) * (5/2)) +
       (1 - (if resK3.1.smoothed_risk < clamp01 (3/10 + (resK3.1.threshold - alertY.score) * (5/2))
             then (1/2:ℚ) else 2/25)) * resK3.1.smoothed_risk = 42501/50000 := by
    rw [h3sm, h3th]
    norm_num [alertY, mkAlert, clamp01, min_def, max_def]
  have hf4 := integrateAlert_some_fields resK3.1 alertY 200 koTrue piNone
  have h4sm : resK4.1.smoothed_risk = 42501/50000 := by
    show (integrateAlert resK3.1 (some alertY) 200 koTrue piNone).1.smoothed_risk = 42501/50000
    rw [hf4.1]
    exact hsm4
  have h4rk : resK4.1.risk_score = 17/20 := by
    show (integrateAlert resK3.1 (some alertY) 200 koTrue piNone).1.risk_score = 17/20
    rw [hf4.2.1,
      show (integrateAlert resK3.1 (some alertY) 200 koTrue piNone).1.smoothed_risk
        = 42501/50000 from h4sm]
    norm_num [round4, roundHalfEven, clamp01, min_def, max_def]
  have h4ca : resK4.1.consecutive_alerts = 4 := by
    show (integrateAlert resK3.1 (some alertY) 200 koTrue piNone).1.consecutive_alerts = 4
    rw [hf4.2.2, h3ca]
  rcases integrateAlert_kill_cases resK3.1 alertY 200 koTrue piNone with ⟨hk4, hkl4⟩ |
    ⟨p, _, _, _, hrk, _, _, _⟩
  · exact ⟨h3k2, h3kl, hex, rfl, by norm_num, h4ca, h4sm, by norm_num, h4rk, by norm_num,
      by norm_num, hk4, hkl4.trans h3kl⟩
  · rw [hsm4] at hrk
    norm_num [round4, roundHalfEven, clamp01, min_def, max_def] at hrk

-- ---------------------------------------------------------------------
-- Claim C4: warm-up suppression
-- ---------------------------------------------------------------------

/-- During warm-up, `_on_event` only counts the event, feeds the UI
    feature engine, and feeds the detector; the risk state is untouched
    and no kill is attempted. -/
theorem onEvent_warmup_step (score : List (String × ℝ) → ℚ) (fs : FileSys)
    (ko : ℤ → Bool) (g : ℤ → Option ProcInfo)
    (sys : RBSystem) (det : Detector) (e : FileEvent) (now : ℚ)
    (hdet : sys.detector = some det) (hscan : sys.backend.scanning = true)
    (hwarm : now - sys.backend.scan_start < 15) :
    onEvent score fs ko g sys e now =
      (⟨{ sys.backend with
          event_count := sys.backend.event_count + 1,
          feature_engine := sys.backend.feature_engine.map (fun fe => fe.add_event e) },
        some (Detector.process_event score fs det e).1⟩, []) := by
  obtain ⟨b, dd⟩ := sys
  simp only at hdet hscan hwarm
  subst hdet
  simp [onEvent, hscan, hwarm]

theorem runOnEvents_warmup (score : List (String × ℝ) → ℚ) (fs : FileSys)
    (ko : ℤ → Bool) (g : ℤ → Option ProcInfo) (stream : List (FileEvent × ℚ)) :
    ∀ (b : BackendState) (det : Detector),
      b.scanning = true →
      (∀ pr ∈ stream, pr.2 - b.scan_start < 15) →
      (runOnEvents score fs ko g ⟨b, some det⟩ stream).backend.smoothed_risk =
        b.smoothed_risk ∧
      (runOnEvents score fs ko g ⟨b, some det⟩ stream).backend.risk_score = b.risk_score ∧
      (runOnEvents score fs ko g ⟨b, some det⟩ stream).backend.flagged = b.flagged ∧
      (runOnEvents score fs ko g ⟨b, some det⟩ stream).backend.consecutive_alerts =
        b.consecutive_alerts ∧
      (runOnEvents score fs ko g ⟨b, some det⟩ stream).detector =
        some (stream.foldl (fun d pr => (Detector.process_event score fs d pr.1).1) det) := by
  induction stream with
  | nil =>
    intro b det _ _
    exact ⟨rfl, rfl, rfl, rfl, rfl⟩
  | cons pr rest ih =>
    intro b det hscan hw
    have hstep := onEvent_warmup_step score fs ko g ⟨b, some det⟩ det pr.1 pr.2 rfl hscan
      (hw pr (by simp))
    have hrun : runOnEvents score fs ko g ⟨b, some det⟩ (pr :: rest) =
        runOnEvents score fs ko g
          ⟨{ b with
              event_count := b.event_count + 1,
              feature_engine := b.feature_engine.map (fun fe => fe.add_event pr.1) },
            some (Detector.process_event score fs det pr.1).1⟩ rest := by
      show runOnEvents score fs ko g (onEvent score fs ko g ⟨b, some det⟩ pr.1 pr.2).1 rest = _
      rw [hstep]
    rw [hrun]
    have hres := ih
      { b with
        event_count := b.event_count + 1,
        feature_engine := b.feature_engine.map (fun fe => fe.add_event pr.1) }
      (Detector.process_event score fs det pr.1).1 hscan
      (fun q hq => hw q (by simp [hq]))
    simpa using hres

/-- Claim C4: for every event arriving while `now − scan_start <
    warmup_sec` (15 s), the integrator returns before computing instant
    risk, updating smoothed risk, or appending records — so
    `smoothed_risk` (and the displayed `risk_score`) remains at its
    initial value 0.0 and no `ResponseRecord` exists before warm-up
    elapses — while each event is still fed to the detector so the
    sliding window keeps filling. -/
theorem claim_C4_warmup_suppression (score : List (String × ℝ) → ℚ) (fs : FileSys)
    (ko : ℤ → Bool) (g : ℤ → Option ProcInfo) (thr W : ℚ) (minev : ℕ) (t0 : ℚ)
    (stream : List (FileEvent × ℚ))
    (hw : ∀ pr ∈ stream, pr.2 - t0 < 15) :
    (runOnEvents score fs ko g
      ⟨startScan (BackendState.init thr W) t0, some (Detector.init W thr minev)⟩
      stream).backend.smoothed_risk = 0 ∧
    (runOnEvents score fs ko g
      ⟨startScan (BackendState.init thr W) t0, some (Detector.init W thr minev)⟩
      stream).backend.risk_score = 0 ∧
    (runOnEvents score fs ko g
      ⟨startScan (BackendState.init thr W) t0, some (Detector.init W thr minev)⟩
      stream).backend.flagged = [] ∧
    (runOnEvents score fs ko g
      ⟨startScan (BackendState.init thr W) t0, some (Detector.init W thr minev)⟩
      stream).backend.consecutive_alerts = 0 ∧
    (runOnEvents score fs ko g
      ⟨startScan (BackendState.init thr W) t0, some (Detector.init W thr minev)⟩
      stream).detector =
      some (stream.foldl (fun d pr => (Detector.process_event score fs d pr.1).1)
        (Detector.init W thr minev)) := by
  have h := runOnEvents_warmup score fs ko g stream
    (startScan (BackendState.init thr W) t0) (Detector.init W thr minev) rfl
    (by
      intro pr hpr
      have : (startScan (BackendState.init thr W) t0).scan_start = t0 := rfl
      rw [this]
      exact hw pr hpr)
  exact h

/-- Witness for C4: one event at `t = 5` with `scan_start = 0` is inside
    the 15-second warm-up window. -/
theorem claim_C4_warmup_suppression_witness :
    (∀ pr ∈ [(evA, (5 : ℚ))], pr.2 - 0 < 15) ∧
    (runOnEvents scoreNeg1 fsEmpty koTrue piNone
      ⟨startScan (BackendState.init (-(1/2)) 15) 0, some (Detector.init 15 (-(1/2)) 5)⟩
      [(evA, (5 : ℚ))]).backend.smoothed_risk = 0 ∧
    (runOnEvents scoreNeg1 fsEmpty koTrue piNone
      ⟨startScan (BackendState.init (-(1/2)) 15) 0, some (Detector.init 15 (-(1/2)) 5)⟩
      [(evA, (5 : ℚ))]).backend.flagged = [] := by
  have hw : ∀ pr ∈ [(evA, (5 : ℚ))], pr.2 - 0 < 15 := by
    intro pr hpr
    simp at hpr
    rw [hpr]
    norm_num
  have h := claim_C4_warmup_suppression scoreNeg1 fsEmpty koTrue piNone (-(1/2)) 15 5 0
    [(evA, (5 : ℚ))] hw
  exact ⟨hw, h.1, h.2.2.1⟩

-- ---------------------------------------------------------------------
-- Claim C6: the feature vector
-- ---------------------------------------------------------------------


/-- Claim C6: for every non-empty window snapshot, `extract_features`
    returns exactly the five features in the fixed order, computed as
    `elapsed = max(t_last − t_first, 1.0)`,
    `files_modified_per_sec = modify_count/elapsed`,
    `rename_rate = rename_count/elapsed`,
    `unique_files_touched = |distinct paths|` as a float,
    `extension_change_rate = (renames whose destination basename split on
    "." yields ≥ 3 segments)/(total renames)` and `0.0` with no renames —
    hence always in `[0, 1]` (in particular never NaN).  For an empty
    window every feature is exactly 0.0.  The embedding is a total
    function, reflecting that no exception propagates from extraction. -/
theorem claim_C6_extract_features (fs : FileSys) (fe : FeatureEngine) :
    (fe.buffer = [] →
      extract_features fs fe =
        [("files_modified_per_sec", (0:ℝ)), ("rename_rate", 0),
         ("unique_files_touched", 0), ("extension_change_rate", 0),
         ("entropy_change", 0)]) ∧
    (fe.buffer ≠ [] →
      extract_features fs fe =
        [("files_modified_per_sec",
           ((fe.buffer.filter (fun e => e.event_type == "modify")).length : ℝ) /
             ((max (lastTimestamp fe.buffer - firstTimestamp fe.buffer) 1 : ℚ) : ℝ)),
         ("rename_rate",
           ((fe.buffer.filter (fun e => e.event_type == "rename")).length : ℝ) /
             ((max (lastTimestamp fe.buffer - firstTimestamp fe.buffer) 1 : ℚ) : ℝ)),
         ("unique_files_touched", ((fe.buffer.map (fun e => e.file_path)).dedup.length : ℝ)),
         ("extension_change_rate",
           if 0 < (fe.buffer.filter (fun e => e.event_type == "rename")).length then
             (((fe.buffer.filter (fun e => e.event_type == "rename")).filter
                 (fun e => decide (3 ≤ ((basename e.file_path).splitOn ".").length))).length : ℝ) /
               (((fe.buffer.filter (fun e => e.event_type == "rename")).length : ℕ) : ℝ)
           else 0),
         ("entropy_change", meanEntropyOfRecentFiles fs fe fe.buffer)]) ∧
    (∀ x : ℝ, ("extension_change_rate", x) ∈ extract_features fs fe → 0 ≤ x ∧ x ≤ 1) := by
  refine ⟨?_, ?_, ?_⟩
  · intro hempty
    simp [extract_features, hempty, FEATURE_NAMES]
  · intro hne
    have hie : fe.buffer.isEmpty = false := by
      simpa [List.isEmpty_iff] using hne
    simp only [extract_features, hie, Bool.false_eq_true, if_false,
      countExtensionChanges, List.countP_eq_length_filter]
  · intro x hx
    by_cases hempty : fe.buffer.isEmpty
    · simp only [extract_features, hempty, if_true] at hx
      simp [FEATURE_NAMES] at hx
      rcases hx with h | h | h | h | h <;> simp_all
    · simp only [extract_features, hempty, Bool.false_eq_true, if_false] at hx
      simp at hx
      subst hx
      by_cases hrn : 0 < (List.filter (fun e => e.event_type == "rename") fe.buffer).length
      · rw [if_pos hrn]
        constructor
        · positivity
        · rw [div_le_one (by exact_mod_cast hrn)]
          simp only [countExtensionChanges]
          exact_mod_cast List.countP_le_length _
      · rw [if_neg hrn]
        norm_num

/-- Witness for C6 at the empty window: all five features are 0.0. -/
theorem claim_C6_extract_features_witness :
    (FeatureEngine.init 10 4096 10).buffer = [] ∧
    extract_features fsEmpty (FeatureEngine.init 10 4096 10) =
      [("files_modified_per_sec", (0:ℝ)), ("rename_rate", 0),
       ("unique_files_touched", 0), ("extension_change_rate", 0),
       ("entropy_change", 0)] :=
  ⟨rfl, (claim_C6_extract_features fsEmpty (FeatureEngine.init 10 4096 10)).1 rfl⟩

-- ---------------------------------------------------------------------
-- Claim C9: synthetic benign training data
-- ---------------------------------------------------------------------


theorem pyUniform_bounds {a b u : ℚ} (hab : a ≤ b) (h0 : 0 ≤ u) (h1 : u ≤ 1) :
    a ≤ pyUniform a b u ∧ pyUniform a b u ≤ b := by
  unfold pyUniform
  constructor <;> nlinarith

/-- Claim C9 (amended): when training falls back to synthetic benign
    data, every generated sample is drawn by the same five fixed uniform
    draws — `files_modified_per_sec ∈ [0.1, 2.0]`,
    `rename_rate ∈ [0.0, 0.3]`, `unique_files_touched ∈ [1, 10]`,
    `extension_change_rate ∈ [0.0, 0.05]`, `entropy_change ∈ [3.5, 5.5]`
    — with no idle-biased subpopulation; `u` is the PRNG's stream of
    unit-interval draws (`random.uniform(a,b) = a + (b−a)·random()`). -/
theorem claim_C9_synthetic_ranges (u : ℕ → ℚ) (count : ℕ)
    (hu : ∀ n, 0 ≤ u n ∧ u n ≤ 1) :
    ∀ s ∈ generateSyntheticNormal u count,
      (∃ i, i < count ∧
        s = { files_modified_per_sec := pyUniform (1/10) 2 (u (5*i)),
              rename_rate := pyUniform 0 (3/10) (u (5*i + 1)),
              unique_files_touched := pyUniform 1 10 (u (5*i + 2)),
              extension_change_rate := pyUniform 0 (1/20) (u (5*i + 3)),
              entropy_change := pyUniform (7/2) (11/2) (u (5*i + 4)) }) ∧
      (1/10 ≤ s.files_modified_per_sec ∧ s.files_modified_per_sec ≤ 2) ∧
      (0 ≤ s.rename_rate ∧ s.rename_rate ≤ 3/10) ∧
      (1 ≤ s.unique_files_touched ∧ s.unique_files_touched ≤ 10) ∧
      (0 ≤ s.extension_change_rate ∧ s.extension_change_rate ≤ 1/20) ∧
      (7/2 ≤ s.entropy_change ∧ s.entropy_change ≤ 11/2) := by
  intro s hs
  simp only [generateSyntheticNormal, List.mem_map, List.mem_range] at hs
  rcases hs with ⟨i, hi, hsi⟩
  subst hsi
  refine ⟨⟨i, hi, rfl⟩, ?_, ?_, ?_, ?_, ?_⟩
  · exact pyUniform_bounds (by norm_num) (hu (5*i)).1 (hu (5*i)).2
  · exact pyUniform_bounds (by norm_num) (hu (5*i + 1)).1 (hu (5*i + 1)).2
  · exact pyUniform_bounds (by norm_num) (hu (5*i + 2)).1 (hu (5*i + 2)).2
  · exact pyUniform_bounds (by norm_num) (hu (5*i + 3)).1 (hu (5*i + 3)).2
  · exact pyUniform_bounds (by norm_num) (hu (5*i + 4)).1 (hu (5*i + 4)).2

/-- Counterexample to C9 as stated: the claimed per-feature uniform
    ranges are not those of the code.  At the extreme draw `u ≡ 1` the
    generated `files_modified_per_sec` is 2.0, whereas a uniform draw on
    the claimed range `[0.0, 5.0]` yields 5.0; at `u ≡ 0` the generated
    `entropy_change` is 3.5, whereas a uniform draw on the claimed range
    `[0.0, 6.0]` yields 0.0.  (The code also has no idle-biased 30%
    subpopulation: every sample is produced by the same five draws.) -/
theorem claim_C9_counterexample :
    (generateSyntheticNormal uOne 1).map (fun s => s.files_modified_per_sec) = [2] ∧
    pyUniform 0 5 (uOne 0) = 5 ∧ (2:ℚ) ≠ 5 ∧
    (generateSyntheticNormal uZero 1).map (fun s => s.entropy_change) = [7/2] ∧
    pyUniform 0 6 (uZero 4) = 0 ∧ (7/2:ℚ) ≠ 0 := by
  refine ⟨?_, by norm_num [pyUniform, uOne], by norm_num, ?_,
    by norm_num [pyUniform, uZero], by norm_num⟩
  · simp [generateSyntheticNormal, pyUniform, uOne]
  · simp [generateSyntheticNormal, pyUniform, uZero]

theorem claim_C9_synthetic_ranges_witness :
    (∀ n, 0 ≤ uHalf n ∧ uHalf n ≤ 1) ∧
    sampleHalf ∈ generateSyntheticNormal uHalf 1 ∧
    (7/2 ≤ sampleHalf.entropy_change ∧ sampleHalf.entropy_change ≤ 11/2) := by
  have hu : ∀ n, 0 ≤ uHalf n ∧ uHalf n ≤ 1 := fun n => by norm_num [uHalf]
  have hgen : generateSyntheticNormal uHalf 1 = [sampleHalf] := by
    simp [generateSyntheticNormal, pyUniform, uHalf, sampleHalf]
    norm_num
  have hmem : sampleHalf ∈ generateSyntheticNormal uHalf 1 := by
    rw [hgen]
    exact List.mem_singleton_self _
  exact ⟨hu, hmem, (claim_C9_synthetic_ranges uHalf 1 hu sampleHalf hmem).2.2.2.2.2⟩


theorem dedup_toFinset (l : List ℕ) : l.dedup.toFinset = l.toFinset := by
  apply List.toFinset_eq_iff_perm_dedup.mpr
  rw [List.dedup_idem]

theorem entropyOfData_nonneg (data : List ℕ) : 0 ≤ entropyOfData data := by
  unfold entropyOfData
  apply List.sum_nonneg
  intro x hx
  simp only [List.mem_map] at hx
  rcases hx with ⟨b, hb, hxe⟩
  subst hxe
  have hmem : b ∈ data := List.mem_dedup.mp hb
  have hcount : 0 < data.count b := List.count_pos_iff.mpr hmem
  have hlen : 0 < data.length := List.length_pos.mpr (by rintro rfl; simp at hmem)
  have hp0 : 0 < (data.count b : ℝ) / (data.length : ℝ) :=
    div_pos (by exact_mod_cast hcount) (by exact_mod_cast hlen)
  have hp1 : (data.count b : ℝ) / (data.length : ℝ) ≤ 1 := by
    rw [div_le_one (by exact_mod_cast hlen)]
    exact_mod_cast List.count_le_length b data
  have hlog : Real.logb 2 ((data.count b : ℝ) / (data.length : ℝ)) ≤ 0 :=
    Real.logb_nonpos (by norm_num) hp0.le hp1
  nlinarith

theorem entropyOfData_le_eight (data : List ℕ) (hne : data ≠ [])
    (hbytes : ∀ b ∈ data, b < 256) : entropyOfData data ≤ 8 := by
  have hlen : 0 < data.length := List.length_pos.mpr hne
  have hlenR : (0:ℝ) < (data.length : ℝ) := by exact_mod_cast hlen
  have hsum_eq : entropyOfData data =
      ∑ b in data.toFinset,
        -(((data.count b : ℝ) / (data.length : ℝ)) *
          Real.logb 2 ((data.count b : ℝ) / (data.length : ℝ))) := by
    unfold entropyOfData
    rw [← dedup_toFinset, List.sum_toFinset _ (List.nodup_dedup data)]
  have hwpos : ∀ b ∈ data.toFinset, 0 < (data.count b : ℝ) / (data.length : ℝ) := by
    intro b hb
    have hmem : b ∈ data := List.mem_toFinset.mp hb
    exact div_pos (by exact_mod_cast List.count_pos_iff.mpr hmem) hlenR
  have hwsum : ∑ b in data.toFinset, (data.count b : ℝ) / (data.length : ℝ) = 1 := by
    rw [← Finset.sum_div]
    rw [show ∑ b in data.toFinset, (data.count b : ℝ) = (data.length : ℝ) by
      exact_mod_cast congrArg (Nat.cast : ℕ → ℝ) (List.sum_toFinset_count_eq_length data)]
    exact div_self hlenR.ne'
  have hconc : ConcaveOn ℝ (Set.Ioi 0) Real.log := strictConcaveOn_log_Ioi.concaveOn
  have hj := hconc.le_map_sum (t := data.toFinset)
    (w := fun b => (data.count b : ℝ) / (data.length : ℝ))
    (p := fun b => ((data.count b : ℝ) / (data.length : ℝ))⁻¹)
    (fun b hb => (hwpos b hb).le) hwsum
    (fun b hb => Set.mem_Ioi.mpr (inv_pos.mpr (hwpos b hb)))
  have hsum_inv : ∑ b in data.toFinset,
      ((data.count b : ℝ) / (data.length : ℝ)) •
        ((data.count b : ℝ) / (data.length : ℝ))⁻¹ = (data.toFinset.card : ℝ) := by
    rw [Finset.sum_congr rfl (fun b hb => by
      rw [smul_eq_mul, mul_inv_cancel₀ (hwpos b hb).ne'])]
    simp
  rw [hsum_inv] at hj
  have hcard_pos : 0 < data.toFinset.card := by
    rcases List.exists_mem_of_ne_nil data hne with ⟨b, hb⟩
    exact Finset.card_pos.mpr ⟨b, List.mem_toFinset.mpr hb⟩
  have hcard_le : (data.toFinset.card : ℝ) ≤ 256 := by
    have hsub : data.toFinset ⊆ Finset.range 256 := by
      intro b hb
      exact Finset.mem_range.mpr (hbytes b (List.mem_toFinset.mp hb))
    have := Finset.card_le_card hsub
    rw [Finset.card_range] at this
    exact_mod_cast this
  have hlog_le : Real.log (data.toFinset.card : ℝ) ≤ Real.log 256 :=
    Real.log_le_log (by exact_mod_cast hcard_pos) hcard_le
  have hln2 : (0:ℝ) < Real.log 2 := Real.log_pos (by norm_num)
  have hterm : ∀ b ∈ data.toFinset,
      -(((data.count b : ℝ) / (data.length : ℝ)) *
        Real.logb 2 ((data.count b : ℝ) / (data.length : ℝ))) =
      (((data.count b : ℝ) / (data.length : ℝ)) •
        Real.log (((data.count b : ℝ) / (data.length : ℝ))⁻¹)) / Real.log 2 := by
    intro b hb
    rw [smul_eq_mul, Real.log_inv, Real.logb]
    ring
  calc entropyOfData data
      = (∑ b in data.toFinset,
          ((data.count b : ℝ) / (data.length : ℝ)) •
            Real.log (((data.count b : ℝ) / (data.length : ℝ))⁻¹)) / Real.log 2 := by
        rw [hsum_eq, Finset.sum_congr rfl hterm, Finset.sum_div]
    _ ≤ Real.log (data.toFinset.card : ℝ) / Real.log 2 :=
        (div_le_div_iff_of_pos_right hln2).mpr hj
    _ ≤ Real.log 256 / Real.log 2 := (div_le_div_iff_of_pos_right hln2).mpr hlog_le
    _ = 8 := by
        rw [show (256:ℝ) = 2 ^ (8:ℕ) by norm_num, Real.log_pow]
        field_simp

theorem computeFileEntropy_nonneg (fs : FileSys) (path : String) (n : ℕ) :
    0 ≤ computeFileEntropy fs path n := by
  unfold computeFileEntropy
  rcases fs path with _ | content
  · exact le_refl 0
  · dsimp only
    split
    · exact le_refl 0
    · exact entropyOfData_nonneg _

/-- C5: the entropy_change feature is the arithmetic mean of the Shannon
entropies (in bits) of the first `entropy_sample_size` bytes of up to
`max_entropy_files` most-recently-modified distinct paths, each entropy lying
in [0, 8], unreadable or empty files contributing exactly 0.0 — amended: the
mean is taken over exactly the successfully sampled files whose computed
entropy is strictly positive (the code filters `e > 0.0`), not over all
non-empty reads, and is 0.0 when no entropy is positive. -/
theorem claim_C5_entropy_mean (fs : FileSys) (fe : FeatureEngine) (events : List FileEvent)
    (path : String) (n : ℕ) :
    (fs path = none → computeFileEntropy fs path n = 0) ∧
    (∀ content, fs path = some content → content.take n = [] →
        computeFileEntropy fs path n = 0) ∧
    (∀ content, fs path = some content → (∀ b ∈ content, b < 256) →
        0 ≤ computeFileEntropy fs path n ∧ computeFileEntropy fs path n ≤ 8) ∧
    (meanEntropyOfRecentFiles fs fe events =
      if ((collectRecentPaths fe.max_entropy_files events.reverse []).filter
            (fun p => decide (0 < computeFileEntropy fs p fe.entropy_sample_size))).isEmpty
      then 0
      else (((collectRecentPaths fe.max_entropy_files events.reverse []).filter
              (fun p => decide (0 < computeFileEntropy fs p fe.entropy_sample_size))).map
              (fun p => computeFileEntropy fs p fe.entropy_sample_size)).sum /
           ((((collectRecentPaths fe.max_entropy_files events.reverse []).filter
              (fun p => decide (0 < computeFileEntropy fs p fe.entropy_sample_size))).length : ℕ) : ℝ)) := by
  refine ⟨?_, ?_, ?_, ?_⟩
  · intro hnone
    unfold computeFileEntropy
    rw [hnone]
  · intro content hsome htake
    unfold computeFileEntropy
    rw [hsome]
    simp [htake]
  · intro content hsome hbytes
    refine ⟨computeFileEntropy_nonneg fs path n, ?_⟩
    unfold computeFileEntropy
    rw [hsome]
    dsimp only
    split_ifs with hemp
    · norm_num
    · apply entropyOfData_le_eight
      · intro hcontra
        exact hemp (by rw [hcontra]; rfl)
      · intro b hb
        exact hbytes b (List.take_subset n content hb)
  · unfold meanEntropyOfRecentFiles
    dsimp only
    rw [List.filter_map]
    simp only [Function.comp_def]
    by_cases hpe : (collectRecentPaths fe.max_entropy_files events.reverse []).isEmpty
    · rw [if_pos hpe]
      rw [List.isEmpty_iff] at hpe
      rw [hpe]
      simp
    · rw [if_neg hpe]
      have hm : ∀ (l : List String),
          (l.map (fun p => computeFileEntropy fs p fe.entropy_sample_size)).isEmpty =
            l.isEmpty := by
        intro l
        cases l <;> rfl
      rw [hm, List.length_map]

theorem entropyOfData_two_vals : entropyOfData [7, 9] = 1 := by
  have hd : ([7, 9] : List ℕ).dedup = [7, 9] := by decide
  unfold entropyOfData
  rw [hd]
  have hc7 : ([7, 9] : List ℕ).count 7 = 1 := by decide
  have hc9 : ([7, 9] : List ℕ).count 9 = 1 := by decide
  have hl : ([7, 9] : List ℕ).length = 2 := rfl
  simp only [List.map_cons, List.map_nil, List.sum_cons, List.sum_nil, hc7, hc9, hl]
  rw [show ((1:ℕ) : ℝ) / ((2:ℕ) : ℝ) = 2⁻¹ by norm_num]
  rw [Real.logb_inv, Real.logb_self_eq_one (by norm_num)]
  ring

theorem entropyOfData_const_bytes : entropyOfData [0, 0, 0, 0] = 0 := by
  have hd : ([0, 0, 0, 0] : List ℕ).dedup = [0] := by decide
  unfold entropyOfData
  rw [hd]
  have hc : ([0, 0, 0, 0] : List ℕ).count 0 = 4 := by decide
  have hl : ([0, 0, 0, 0] : List ℕ).length = 4 := rfl
  simp only [List.map_cons, List.map_nil, List.sum_cons, List.sum_nil, hc, hl]
  rw [show ((4:ℕ) : ℝ) / ((4:ℕ) : ℝ) = 1 by norm_num]
  simp [Real.logb_one]

theorem computeFileEntropy_slashB : computeFileEntropy fsTwo "/b" 4096 = 1 := by
  unfold computeFileEntropy
  have h1 : fsTwo "/b" = some [7, 9] := by simp [fsTwo]
  rw [h1]
  simp only [List.take]
  simp [entropyOfData_two_vals]

theorem computeFileEntropy_slashA : computeFileEntropy fsTwo "/a" 4096 = 0 := by
  unfold computeFileEntropy
  have h1 : fsTwo "/a" = some [0, 0, 0, 0] := by simp [fsTwo]
  rw [h1]
  simp only [List.take]
  simp [entropyOfData_const_bytes]

theorem collectRecentPaths_two :
    collectRecentPaths feDefault.max_entropy_files eventsTwo.reverse [] = ["/b", "/a"] := by
  simp [collectRecentPaths, eventsTwo, feDefault, FeatureEngine.init]

/-- C5 counterexample: two readable non-empty files, "/b" with bytes [7,9]
(entropy 1 bit) and "/a" with bytes [0,0,0,0] (entropy 0 bits).  The claim
says the mean is taken over all successfully sampled non-empty reads, giving
(1+0)/2 = 1/2; the code filters out zero-entropy files and returns 1. -/
theorem claim_C5_counterexample :
    meanEntropyOfRecentFiles fsTwo feDefault eventsTwo = 1 ∧
    collectRecentPaths feDefault.max_entropy_files eventsTwo.reverse [] = ["/b", "/a"] ∧
    (∀ p ∈ (["/b", "/a"] : List String), ∃ c, fsTwo p = some c ∧
       (c.take feDefault.entropy_sample_size).isEmpty = false) ∧
    ((["/b", "/a"] : List String).map
        (fun p => computeFileEntropy fsTwo p feDefault.entropy_sample_size)).sum /
      (((["/b", "/a"] : List String).length : ℕ) : ℝ) = 1/2 ∧
    (1 : ℝ) ≠ 1/2 := by
  have hN : feDefault.entropy_sample_size = 4096 := rfl
  have hmap : (["/b", "/a"] : List String).map
      (fun p => computeFileEntropy fsTwo p feDefault.entropy_sample_size) = [1, 0] := by
    rw [List.map_cons, List.map_cons, List.map_nil, hN,
      computeFileEntropy_slashB, computeFileEntropy_slashA]
  have hfil : ([1, 0] : List ℝ).filter (fun x => decide (0 < x)) = [1] := by
    simp [List.filter]
  refine ⟨?_, collectRecentPaths_two, ?_, ?_, by norm_num⟩
  · unfold meanEntropyOfRecentFiles
    rw [collectRecentPaths_two]
    simp only [hmap, hfil, List.isEmpty_cons, Bool.false_eq_true, if_false]
    norm_num
  · intro p hp
    rcases List.mem_cons.mp hp with h | h
    · subst h
      exact ⟨[7, 9], by simp [fsTwo], by rw [hN]; decide⟩
    · rcases List.mem_cons.mp h with h2 | h2
      · subst h2
        exact ⟨[0, 0, 0, 0], by simp [fsTwo], by rw [hN]; decide⟩
      · simp at h2
  · rw [hmap]
    norm_num

/-- Witness for C5: concrete readable file with byte values below 256, its
entropy bounded in [0, 8] via the claim theorem. -/
theorem claim_C5_entropy_mean_witness :
    fsTwo "/b" = some [7, 9] ∧ (∀ b ∈ ([7, 9] : List ℕ), b < 256) ∧
    0 ≤ computeFileEntropy fsTwo "/b" 4096 ∧ computeFileEntropy fsTwo "/b" 4096 ≤ 8 := by
  have h1 : fsTwo "/b" = some [7, 9] := by simp [fsTwo]
  have h2 : ∀ b ∈ ([7, 9] : List ℕ), b < 256 := by decide
  have h := (claim_C5_entropy_mean fsTwo feDefault eventsTwo "/b" 4096).2.2.1 [7, 9] h1 h2
  exact ⟨h1, h2, h.1, h.2⟩

end KavachR
